import Mathlib

/-!
# Waydroid panel: session orchestration

A shallow embedding of `panels/waydroid/cc-waydroid-panel.c`.

* The panel's widgets are records holding the properties the handlers read or
  write (`sensitive`, `active`, `state`, label text, drop-down model).
* The process state `State` holds the panel (`self`), the global
  `PackageState`, and the pieces of the GLib main loop and of the operating
  system the handlers talk to: pending timeouts, pending idle callbacks,
  started threads, watched output channels and the log of spawn calls.
* Everything the outside world answers (whether a spawn worked, an exit
  status, captured output, a line read from a pipe) is an argument of the
  function that consumes it.
* Signal wiring (`g_signal_connect`) is not part of `State`; the delivery
  functions at the end of the definitions say which handler a user gesture
  reaches and with which arguments.
-/

namespace CcWaydroid

/-! ## C strings and GLib string helpers -/

/-- GLib `g_ascii_isspace`: space, tab, line feed, form feed, carriage return.
The vertical tab is not white space for GLib. -/
def g_ascii_isspace (c : Char) : Bool :=
  c = ' ' || c = Char.ofNat 9 || c = Char.ofNat 10 || c = Char.ofNat 12 ||
    c = Char.ofNat 13

/-- GLib `g_strchug`: drop leading white space. -/
def g_strchug (s : String) : String :=
  String.mk (s.data.dropWhile g_ascii_isspace)

/-- GLib `g_strchomp`: drop trailing white space. -/
def g_strchomp (s : String) : String :=
  String.mk (s.data.reverse.dropWhile g_ascii_isspace).reverse

/-- GLib `g_strstrip`, the composition `g_strchomp (g_strchug s)`. -/
def g_strstrip (s : String) : String :=
  g_strchomp (g_strchug s)

/-- Substring test on character lists: `true` when `needle` occurs in `hay`. -/
def strstr_chars (hay needle : List Char) : Bool :=
  match hay with
  | [] => needle.isEmpty
  | c :: cs => needle.isPrefixOf (c :: cs) || strstr_chars cs needle

/-- C `strstr (hay, needle) != NULL`. -/
def strstr (hay needle : String) : Bool :=
  strstr_chars hay.data needle.data

/-- GLib `g_strstr_len (hay, -1, needle) != NULL`; a `NULL` haystack gives `NULL`. -/
def g_strstr_len (hay : Option String) (needle : String) : Bool :=
  match hay with
  | none => false
  | some h => strstr h needle

/-- GLib `g_str_has_prefix`; a `NULL` string fails the precondition and gives `FALSE`. -/
def g_str_has_prefix (str : Option String) (pre : String) : Bool :=
  match str with
  | none => false
  | some s => pre.data.isPrefixOf s.data

/-- Pieces of a character list cut at every delimiter, empty pieces kept. -/
def split_chars (delim : Char → Bool) : List Char → List (List Char)
  | [] => [[]]
  | c :: cs =>
    if delim c then [] :: split_chars delim cs
    else
      match split_chars delim cs with
      | [] => [[c]]
      | t :: ts => (c :: t) :: ts

/-- GLib `g_strsplit_set (string, delimiters, -1)`: the empty string gives the empty vector. -/
def g_strsplit_set (string delimiters : String) : List String :=
  if string = "" then []
  else (split_chars (fun c => delimiters.data.contains c) string.data).map String.mk

/-! ## Widgets -/

/-- The anonymous enum behind the global variable `PackageState` (lines 47-51). -/
inductive PackageStateValue where
  | PACKAGE_STATE_NONE
  | PACKAGE_STATE_GAPPS
  | PACKAGE_STATE_VANILLA
  deriving DecidableEq, Repr

/-- A plain widget: only its own `sensitive` flag matters here. -/
structure GtkWidget where
  sensitive : Bool
  deriving DecidableEq, Repr

/-- GtkSwitch: the slider position `active` and the backend `state`. -/
structure GtkSwitch where
  sensitive : Bool
  active : Bool
  state : Bool
  deriving DecidableEq, Repr

/-- GtkToggleButton. -/
structure GtkToggleButton where
  sensitive : Bool
  active : Bool
  deriving DecidableEq, Repr

/-- GtkLabel. -/
structure GtkLabel where
  text : String
  deriving DecidableEq, Repr

/-- GtkDropDown over a GtkStringList. -/
structure GtkDropDown where
  sensitive : Bool
  model : List String
  selected : Nat
  deriving DecidableEq, Repr

/-- The struct `_CcWaydroidPanel` (lines 16-35). `parent` is the panel as a
widget. `app_list_store` is written once and never read, and is left out. -/
structure CcWaydroidPanel where
  parent : GtkWidget
  waydroid_enabled_switch : GtkSwitch
  waydroid_ip_label : GtkLabel
  waydroid_vendor_label : GtkLabel
  waydroid_version_label : GtkLabel
  app_selector : GtkDropDown
  launch_app_button : GtkWidget
  remove_app_button : GtkWidget
  install_app_button : GtkWidget
  show_ui_button : GtkWidget
  refresh_app_list_button : GtkWidget
  waydroid_uevent_switch : GtkSwitch
  install_waydroid_button : GtkToggleButton
  waydroid_factory_reset : GtkWidget
  install_vanilla : GtkToggleButton
  install_gapps : GtkToggleButton
  install_image_button : GtkWidget
  deriving DecidableEq, Repr

/-- Names for the widget pointers that are passed around as data. -/
inductive Widget where
  | panel
  | waydroid_enabled_switch
  | app_selector
  | launch_app_button
  | remove_app_button
  | install_app_button
  | show_ui_button
  | refresh_app_list_button
  | waydroid_uevent_switch
  | install_waydroid_button
  | waydroid_factory_reset
  | install_vanilla
  | install_gapps
  | install_image_button
  deriving DecidableEq, Repr

/-! ## Main loop, threads and processes -/

/-- One call into the GLib spawn family, with the command it was given. -/
inductive Spawn where
  | g_spawn_async (argv : List String)
  | g_spawn_async_with_pipes (argv : List String)
  | g_spawn_sync (argv : List String)
  | g_spawn_command_line_sync (command_line : String)
  | g_spawn_command_line_async (command_line : String)
  deriving DecidableEq, Repr

/-- What `g_spawn_command_line_sync` hands back: its return value, the exit
status and the captured standard output (`none` for a `NULL` pointer). -/
structure SyncResult where
  success : Bool
  exit_status : Int
  output : Option String
  deriving DecidableEq, Repr

/-- Functions installed with `g_timeout_add_seconds`. -/
inductive GSourceFunc where
  | reenable_switch_and_update_info
  | gtk_widget_set_sensitive (widget : Widget)
  deriving DecidableEq, Repr

/-- A pending timeout source. -/
structure Timeout where
  seconds : Nat
  func : GSourceFunc
  deriving DecidableEq, Repr

/-- Callbacks queued with `g_idle_add`, with the data they carry. -/
inductive Idle where
  | update_label_idle (waydroid_ip_output : Option String)
  | update_vendor_idle (waydroid_vendor_output : Option String)
  | update_version_idle (new_version_output : Option String)
  | update_app_list_idle (apps : List String)
  | cc_waydroid_panel_init (data : Widget)
  deriving DecidableEq, Repr

/-- Threads started with `g_thread_new`, with the data they carry. -/
inductive Thread where
  | update_waydroid_ip
  | update_waydroid_vendor
  | update_waydroid_version
  | update_app_list
  | cc_waydroid_panel_launch_app_thread (pkgname : Option String)
  | cc_waydroid_panel_install_waydroid_thread (data_self data_button : Widget)
  | cc_waydroid_panel_install_image_thread (data_self data_button : Widget)
  deriving DecidableEq, Repr

/-- A GIOChannel on a child's standard output. -/
structure GIOChannel where
  is_open : Bool
  deriving DecidableEq, Repr

/-- The whole process as the handlers see it. -/
structure State where
  self : CcWaydroidPanel
  PackageState : PackageStateValue
  timeouts : List Timeout
  idles : List Idle
  threads : List Thread
  io_watches : List GIOChannel
  child_watches : Nat
  spawned : List Spawn
  deriving DecidableEq, Repr

/-! ## Toolkit primitives -/

/-- GTK `gtk_widget_set_sensitive` on the named widget of the panel. -/
def gtk_widget_set_sensitive (w : Widget) (b : Bool) (p : CcWaydroidPanel) : CcWaydroidPanel :=
  match w with
  | .panel => { p with parent := { p.parent with sensitive := b } }
  | .waydroid_enabled_switch =>
    { p with waydroid_enabled_switch := { p.waydroid_enabled_switch with sensitive := b } }
  | .app_selector => { p with app_selector := { p.app_selector with sensitive := b } }
  | .launch_app_button => { p with launch_app_button := { p.launch_app_button with sensitive := b } }
  | .remove_app_button => { p with remove_app_button := { p.remove_app_button with sensitive := b } }
  | .install_app_button => { p with install_app_button := { p.install_app_button with sensitive := b } }
  | .show_ui_button => { p with show_ui_button := { p.show_ui_button with sensitive := b } }
  | .refresh_app_list_button =>
    { p with refresh_app_list_button := { p.refresh_app_list_button with sensitive := b } }
  | .waydroid_uevent_switch =>
    { p with waydroid_uevent_switch := { p.waydroid_uevent_switch with sensitive := b } }
  | .install_waydroid_button =>
    { p with install_waydroid_button := { p.install_waydroid_button with sensitive := b } }
  | .waydroid_factory_reset =>
    { p with waydroid_factory_reset := { p.waydroid_factory_reset with sensitive := b } }
  | .install_vanilla => { p with install_vanilla := { p.install_vanilla with sensitive := b } }
  | .install_gapps => { p with install_gapps := { p.install_gapps with sensitive := b } }
  | .install_image_button =>
    { p with install_image_button := { p.install_image_button with sensitive := b } }

/-- GTK `gtk_widget_get_sensitive`: the widget's own flag. -/
def gtk_widget_get_sensitive (w : Widget) (p : CcWaydroidPanel) : Bool :=
  match w with
  | .panel => p.parent.sensitive
  | .waydroid_enabled_switch => p.waydroid_enabled_switch.sensitive
  | .app_selector => p.app_selector.sensitive
  | .launch_app_button => p.launch_app_button.sensitive
  | .remove_app_button => p.remove_app_button.sensitive
  | .install_app_button => p.install_app_button.sensitive
  | .show_ui_button => p.show_ui_button.sensitive
  | .refresh_app_list_button => p.refresh_app_list_button.sensitive
  | .waydroid_uevent_switch => p.waydroid_uevent_switch.sensitive
  | .install_waydroid_button => p.install_waydroid_button.sensitive
  | .waydroid_factory_reset => p.waydroid_factory_reset.sensitive
  | .install_vanilla => p.install_vanilla.sensitive
  | .install_gapps => p.install_gapps.sensitive
  | .install_image_button => p.install_image_button.sensitive

/-- GTK `gtk_widget_is_sensitive`: a child of the panel takes input only when
the panel and the child are both sensitive. -/
def gtk_widget_is_sensitive (w : Widget) (p : CcWaydroidPanel) : Bool :=
  p.parent.sensitive && gtk_widget_get_sensitive w p

/-- Shorthand for `gtk_widget_set_sensitive (GTK_WIDGET (self->w), b)`. -/
def set_sensitive (w : Widget) (b : Bool) (s : State) : State :=
  { s with self := gtk_widget_set_sensitive w b s.self }

/-- GTK `gtk_switch_set_state` while the panel's own handler is blocked: the
state is stored and the slider follows it. -/
def gtk_switch_set_state (sw : GtkSwitch) (state : Bool) : GtkSwitch :=
  if sw.state = state then sw else { sw with state := state, active := state }

/-- GTK `gtk_switch_set_active` while the panel's own handler is blocked: a
change of position runs only the default `state-set` handler, which stores
the state. -/
def gtk_switch_set_active (sw : GtkSwitch) (is_active : Bool) : GtkSwitch :=
  if sw.active = is_active then sw
  else gtk_switch_set_state { sw with active := is_active } is_active

/-- GTK `gtk_drop_down_set_model`: the model is replaced and the selection
goes back to the first item. -/
def gtk_drop_down_set_model (d : GtkDropDown) (model : List String) : GtkDropDown :=
  { d with model := model, selected := 0 }

/-- GTK `gtk_drop_down_get_selected_item`. -/
def gtk_drop_down_get_selected_item (d : GtkDropDown) : Option String :=
  d.model.get? d.selected

/-- GTK `gtk_label_set_text`; a `NULL` text shows as the empty string. -/
def gtk_label_set_text (_l : GtkLabel) (str : Option String) : GtkLabel :=
  { text := str.getD "" }

/-- GLib `g_thread_new`. -/
def g_thread_new (t : Thread) (s : State) : State :=
  { s with threads := s.threads ++ [t] }

/-- GLib `g_idle_add`. -/
def g_idle_add (i : Idle) (s : State) : State :=
  { s with idles := s.idles ++ [i] }

/-- GLib `g_timeout_add_seconds`. -/
def g_timeout_add_seconds (seconds : Nat) (func : GSourceFunc) (s : State) : State :=
  { s with timeouts := s.timeouts ++ [{ seconds := seconds, func := func }] }

/-- Record a call into the spawn family. -/
def spawn (c : Spawn) (s : State) : State :=
  { s with spawned := s.spawned ++ [c] }

/-- GLib `g_io_channel_shutdown` on the `i`-th watched channel. -/
def g_io_channel_shutdown (i : Nat) (s : State) : State :=
  { s with io_watches := s.io_watches.modify (fun _ => { is_open := false }) i }

/-! ## The panel's functions -/

/-- GLib `G_SOURCE_REMOVE`. -/
def G_SOURCE_REMOVE : Bool := false

/-- Function `child_stdout_callback` (lines 61-75). `line` is the line read
when `g_io_channel_read_line` reports `G_IO_STATUS_NORMAL`, else `none`.
The returned flag keeps the watch installed. -/
def child_stdout_callback (channel : Nat) (line : Option String) (s : State) : State × Bool :=
  match line with
  | some string =>
    if strstr string "Android with user 0 is ready" then (g_io_channel_shutdown channel s, true)
    else (s, true)
  | none => (s, true)

/-- Function `update_label_idle` (lines 83-94). -/
def update_label_idle (waydroid_ip_output : Option String) (s : State) : State × Bool :=
  ({ s with self := { s.self with
      waydroid_ip_label := gtk_label_set_text s.self.waydroid_ip_label waydroid_ip_output } },
    G_SOURCE_REMOVE)

/-- Function `update_waydroid_ip_threaded` (lines 117-121). -/
def update_waydroid_ip_threaded (s : State) : State :=
  g_thread_new .update_waydroid_ip s

/-- Function `update_app_list_idle` (lines 123-147): the non-empty strings
of `apps` become the drop-down's model and the drop-down is made sensitive. -/
def update_app_list_idle (apps : List String) (s : State) : State × Bool :=
  let list := apps.filter (fun app => decide (app ≠ ""))
  let s := { s with self := { s.self with
    app_selector := gtk_drop_down_set_model s.self.app_selector list } }
  let s := set_sensitive .app_selector true s
  (s, G_SOURCE_REMOVE)

/-- Function `update_app_list` (lines 149-177), the body of the app-list
thread; `r` is what the probe command returned. -/
def update_app_list (r : SyncResult) (s : State) : State :=
  let s := spawn (.g_spawn_command_line_sync
    "sh -c \"waydroid app list | awk -F': ' '/^Name:/ \x7bprint $2\x7d'\"") s
  if r.exit_status ≠ 0 ∨ r.output = none ∨ r.output = some "" then s
  else
    let apps := g_strsplit_set (r.output.getD "") "\n"
    g_idle_add (.update_app_list_idle apps) s

/-- Function `update_app_list_threaded` (lines 179-183). -/
def update_app_list_threaded (s : State) : State :=
  g_thread_new .update_app_list s

/-- Function `get_selected_app_pkgname` (lines 185-211); `lookup` is what the
lookup command returned. The output is handed back untouched. -/
def get_selected_app_pkgname (lookup : SyncResult) (s : State) : State × Option String :=
  match gtk_drop_down_get_selected_item s.self.app_selector with
  | some selected_app =>
    let command := "sh -c \"waydroid app list | awk -v app=\\\"" ++ selected_app ++
      "\\\" '/Name: / && $2 == app \x7b getline; print $2\x7d'\""
    let s := spawn (.g_spawn_command_line_sync command) s
    match lookup.output with
    | some output => if lookup.exit_status = 0 then (s, some output) else (s, none)
    | none => (s, none)
  | none => (s, none)

/-- The twelve `g_strcmp0 (pkgname, ...) != 0` tests of lines 218-223, all
of which must pass for the removal to go ahead. -/
def not_protected (pkgname : String) : Bool :=
  pkgname != "com.android.documentsui" && pkgname != "com.android.contacts" &&
  pkgname != "com.android.camera2" && pkgname != "org.lineageos.recorder" &&
  pkgname != "com.android.gallery3d" && pkgname != "org.lineageos.jelly" &&
  pkgname != "org.lineageos.eleven" && pkgname != "org.lineageos.etar" &&
  pkgname != "com.android.settings" && pkgname != "com.android.calculator2" &&
  pkgname != "com.android.deskclock" && pkgname != "com.android.traceur"

/-- Function `cc_waydroid_panel_uninstall_app` (lines 213-243). -/
def cc_waydroid_panel_uninstall_app (lookup : SyncResult) (s : State) : State :=
  match get_selected_app_pkgname lookup s with
  | (s, some pkgname) =>
    if not_protected pkgname then
      let remove_command := "waydroid app remove " ++ g_strstrip pkgname
      let s := spawn (.g_spawn_command_line_async remove_command) s
      let s := set_sensitive .app_selector false s
      let s := set_sensitive .remove_app_button false s
      let s := set_sensitive .install_app_button false s
      let s := set_sensitive .refresh_app_list_button false s
      let s := g_timeout_add_seconds 5 (.gtk_widget_set_sensitive .app_selector) s
      let s := g_timeout_add_seconds 5 (.gtk_widget_set_sensitive .remove_app_button) s
      let s := g_timeout_add_seconds 5 (.gtk_widget_set_sensitive .install_app_button) s
      let s := g_timeout_add_seconds 5 (.gtk_widget_set_sensitive .refresh_app_list_button) s
      update_app_list_threaded s
    else s
  | (s, none) => s

/-- Function `update_waydroid_vendor_threaded` (lines 307-311). -/
def update_waydroid_vendor_threaded (s : State) : State :=
  g_thread_new .update_waydroid_vendor s

/-- Function `update_waydroid_version_threaded` (lines 352-356). -/
def update_waydroid_version_threaded (s : State) : State :=
  g_thread_new .update_waydroid_version s

/-- Function `cc_waydroid_panel_toggle_uevent` (lines 443-461), the
`state-set` handler of the uevent switch. The returned flag is the handler's
return value: `false` lets the default handler run. -/
def cc_waydroid_panel_toggle_uevent (state : Bool) (s : State) : State × Bool :=
  let argv := ["waydroid", "prop", "set", "persist.waydroid.uevent",
    if state then "true" else "false"]
  if s.self.waydroid_enabled_switch.state then (spawn (.g_spawn_sync argv) s, false)
  else (s, false)

/-- Function `reenable_switch_and_update_info` (lines 482-534), the timeout
callback armed by a successful enable. `uevent` is what the property read
returned. The five `g_signal_connect` calls are wiring and the five second
`g_usleep` only blocks; neither changes `State`. -/
def reenable_switch_and_update_info (uevent : SyncResult) (s : State) : State × Bool :=
  let s := set_sensitive .waydroid_enabled_switch true s
  let s := update_waydroid_ip_threaded s
  let s := update_waydroid_vendor_threaded s
  let s := update_waydroid_version_threaded s
  let s := set_sensitive .launch_app_button true s
  let s := set_sensitive .remove_app_button true s
  let s := set_sensitive .install_app_button true s
  let s := set_sensitive .app_selector true s
  let s := set_sensitive .show_ui_button true s
  let s := set_sensitive .refresh_app_list_button true s
  let s := set_sensitive .waydroid_uevent_switch true s
  let s := set_sensitive .waydroid_factory_reset false s
  let s := set_sensitive .install_image_button false s
  let s := set_sensitive .install_gapps false s
  let s := set_sensitive .install_vanilla false s
  let s := spawn (.g_spawn_command_line_sync
    "sh -c \"waydroid prop get persist.waydroid.uevent\"") s
  let uevent_state : Nat := if g_strstr_len uevent.output "true" then 0 else 1
  let sw := s.self.waydroid_uevent_switch
  let sw :=
    if uevent_state = 0 then gtk_switch_set_active (gtk_switch_set_state sw true) true
    else gtk_switch_set_active (gtk_switch_set_state sw false) false
  let s := { s with self := { s.self with waydroid_uevent_switch := sw } }
  let s := update_app_list_threaded s
  (s, G_SOURCE_REMOVE)

/-- Function `cc_waydroid_panel_enable_waydroid` (lines 536-601), the
`state-set` handler of the enable switch. `spawn_success` is the return value
of the spawn call of the branch taken. The returned flag is the handler's
return value: `false` lets the default handler run. -/
def cc_waydroid_panel_enable_waydroid (state : Bool) (spawn_success : Bool) (s : State) :
    State × Bool :=
  if state then
    let s := spawn (.g_spawn_async_with_pipes ["waydroid", "session", "start"]) s
    if !spawn_success then (s, false)
    else
      let s := { s with io_watches := s.io_watches ++ [GIOChannel.mk true] }
      let s := { s with child_watches := s.child_watches + 1 }
      let s := set_sensitive .waydroid_enabled_switch false s
      let s := g_timeout_add_seconds 15 .reenable_switch_and_update_info s
      (s, false)
  else
    let s := spawn (.g_spawn_sync ["waydroid", "session", "stop"]) s
    let s := update_waydroid_ip_threaded s
    let s := update_waydroid_vendor_threaded s
    let s := update_waydroid_version_threaded s
    let s := { s with self := { s.self with
      waydroid_vendor_label := gtk_label_set_text s.self.waydroid_vendor_label (some "") } }
    let s := { s with self := { s.self with
      waydroid_version_label := gtk_label_set_text s.self.waydroid_version_label (some "") } }
    let s := { s with self := { s.self with
      app_selector := gtk_drop_down_set_model s.self.app_selector [] } }
    let s := set_sensitive .launch_app_button false s
    let s := set_sensitive .remove_app_button false s
    let s := set_sensitive .install_app_button false s
    let s := set_sensitive .app_selector false s
    let s := set_sensitive .show_ui_button false s
    let s := set_sensitive .refresh_app_list_button false s
    let s := set_sensitive .waydroid_uevent_switch false s
    let s := set_sensitive .waydroid_factory_reset true s
    let s := set_sensitive .install_image_button true s
    let s := set_sensitive .install_gapps true s
    let s := set_sensitive .install_vanilla true s
    (s, false)

/-- Function `on_install_vanilla_toggled` (lines 603-620); both toggle
handlers are blocked while the two buttons are set. -/
def on_install_vanilla_toggled (s : State) : State × Bool :=
  let s := { s with self := { s.self with
    install_vanilla := { s.self.install_vanilla with active := true } } }
  let s := { s with self := { s.self with
    install_gapps := { s.self.install_gapps with active := false } } }
  let s :=
    if s.PackageState = .PACKAGE_STATE_VANILLA then set_sensitive .install_image_button false s
    else set_sensitive .install_image_button true s
  (s, true)

/-- Function `on_install_gapps_toggled` (lines 622-639). -/
def on_install_gapps_toggled (s : State) : State × Bool :=
  let s := { s with self := { s.self with
    install_vanilla := { s.self.install_vanilla with active := false } } }
  let s := { s with self := { s.self with
    install_gapps := { s.self.install_gapps with active := true } } }
  let s :=
    if s.PackageState = .PACKAGE_STATE_GAPPS then set_sensitive .install_image_button false s
    else set_sensitive .install_image_button true s
  (s, true)

/-- Function `check_package_and_toggle` (lines 641-665); `gapps_exit_status`
and `vanilla_exit_status` are the exit statuses of the two package queries. -/
def check_package_and_toggle (gapps_exit_status vanilla_exit_status : Int) (s : State) :
    State × Bool :=
  let s := spawn (.g_spawn_command_line_sync "pacman -Qe | grep waydroid-image-gapps") s
  if gapps_exit_status = 0 then
    on_install_gapps_toggled { s with PackageState := .PACKAGE_STATE_GAPPS }
  else
    let s := spawn (.g_spawn_command_line_sync "pacman -Qe | grep waydroid-image") s
    if vanilla_exit_status = 0 then
      on_install_vanilla_toggled { s with PackageState := .PACKAGE_STATE_VANILLA }
    else ({ s with PackageState := .PACKAGE_STATE_NONE }, true)

/-- Function `cc_waydroid_panel_install_image_thread` (lines 723-778), the
body of the image-install thread. `data_self` and `button` are the two
pointers of its `ThreadData`, `uid_str` is the printed `getuid ()` and `r` is
what the install command returned. -/
def cc_waydroid_panel_install_image_thread (data_self button : Widget) (uid_str : String)
    (r : SyncResult) (s : State) : State :=
  let install_command : Option String :=
    if s.PackageState = .PACKAGE_STATE_GAPPS then
      some ("pkexec env XDG_RUNTIME_DIR=/run/user/" ++ uid_str ++ " x-terminal-emulator -e 'pacman -Syy && rm -f /var/lib/waydroid/images/vendor.img && rm -f /var/lib/waydroid/images/system.img && rm -f /var/lib/waydroid/waydroid.cfg && pacman -S waydroid-image-gapps --noconfirm && waydroid init -f'")
    else if s.PackageState = .PACKAGE_STATE_VANILLA then
      some ("pkexec env XDG_RUNTIME_DIR=/run/user/" ++ uid_str ++ " x-terminal-emulator -e 'pacman -Syy && rm -f /var/lib/waydroid/images/vendor.img && rm -f /var/lib/waydroid/images/system.img && rm -f /var/lib/waydroid/waydroid.cfg && pacman -S waydroid-image --noconfirm && waydroid init -f'")
    else none
  match install_command with
  | none => s
  | some install_command =>
    let s := spawn (.g_spawn_command_line_sync install_command) s
    let s :=
      if s.PackageState = .PACKAGE_STATE_GAPPS then
        if r.success && r.exit_status == 0 then
          g_idle_add (.cc_waydroid_panel_init data_self)
            { s with PackageState := .PACKAGE_STATE_VANILLA }
        else s
      else if s.PackageState = .PACKAGE_STATE_VANILLA then
        if r.success && r.exit_status == 0 then
          g_idle_add (.cc_waydroid_panel_init data_self)
            { s with PackageState := .PACKAGE_STATE_GAPPS }
        else s
      else s
    set_sensitive button true s

/-- Function `cc_waydroid_panel_install_image` (lines 780-790), with its two
parameters in the order of the C declaration. -/
def cc_waydroid_panel_install_image (self_arg button : Widget) (s : State) : State :=
  let s := set_sensitive button false s
  g_thread_new (.cc_waydroid_panel_install_image_thread self_arg button) s

/-- What `cc_waydroid_panel_init` learns from the host: whether
`/usr/bin/waydroid` exists, the session line of the status query, the exit
statuses of the two package queries and the uevent property read. -/
structure InitEnv where
  waydroid_exists : Bool
  waydroid : SyncResult
  gapps_exit_status : Int
  vanilla_exit_status : Int
  uevent : SyncResult
  deriving DecidableEq, Repr

/-- Function `cc_waydroid_panel_init` (lines 871-994), run on the panel as
the template built it. Signal connections are wiring and are not recorded. -/
def cc_waydroid_panel_init (env : InitEnv) (s : State) : State :=
  if env.waydroid_exists then
    let s := set_sensitive .install_waydroid_button false s
    let s := spawn (.g_spawn_command_line_sync
      "sh -c \"waydroid status | awk -F'\t' '/Session/ \x7bprint $2; exit\x7d'\"") s
    let s := (check_package_and_toggle env.gapps_exit_status env.vanilla_exit_status s).1
    if g_str_has_prefix env.waydroid.output "RUNNING" then
      let sw := gtk_switch_set_active (gtk_switch_set_state s.self.waydroid_enabled_switch true) true
      let s := { s with self := { s.self with waydroid_enabled_switch := sw } }
      let s := spawn (.g_spawn_command_line_sync
        "sh -c \"waydroid prop get persist.waydroid.uevent\"") s
      let uevent_state : Nat := if g_strstr_len env.uevent.output "true" then 0 else 1
      let sw := s.self.waydroid_uevent_switch
      let sw :=
        if uevent_state = 0 then gtk_switch_set_active (gtk_switch_set_state sw true) true
        else gtk_switch_set_active (gtk_switch_set_state sw false) false
      let s := { s with self := { s.self with waydroid_uevent_switch := sw } }
      let s := set_sensitive .launch_app_button true s
      let s := set_sensitive .remove_app_button true s
      let s := set_sensitive .install_app_button true s
      let s := set_sensitive .app_selector true s
      let s := set_sensitive .show_ui_button true s
      let s := set_sensitive .refresh_app_list_button true s
      let s := set_sensitive .waydroid_uevent_switch true s
      let s := set_sensitive .waydroid_factory_reset false s
      let s := set_sensitive .install_image_button false s
      let s := set_sensitive .install_gapps false s
      let s := set_sensitive .install_vanilla false s
      let s := update_waydroid_ip_threaded s
      let s := update_waydroid_vendor_threaded s
      let s := update_app_list_threaded s
      update_waydroid_version_threaded s
    else
      let sw := gtk_switch_set_active (gtk_switch_set_state s.self.waydroid_enabled_switch false) false
      let s := { s with self := { s.self with waydroid_enabled_switch := sw } }
      let s := { s with self := { s.self with
        waydroid_vendor_label := gtk_label_set_text s.self.waydroid_vendor_label (some "") } }
      let s := { s with self := { s.self with
        waydroid_version_label := gtk_label_set_text s.self.waydroid_version_label (some "") } }
      let s := set_sensitive .launch_app_button false s
      let s := set_sensitive .remove_app_button false s
      let s := set_sensitive .install_app_button false s
      let s := set_sensitive .app_selector false s
      let s := set_sensitive .show_ui_button false s
      let s := set_sensitive .refresh_app_list_button false s
      let s := set_sensitive .waydroid_uevent_switch false s
      let s := set_sensitive .install_gapps true s
      set_sensitive .install_vanilla true s
  else
    let s := set_sensitive .install_waydroid_button true s
    let sw := gtk_switch_set_active (gtk_switch_set_state s.self.waydroid_enabled_switch false) false
    let s := { s with self := { s.self with waydroid_enabled_switch := sw } }
    let s := set_sensitive .waydroid_enabled_switch false s
    let s := { s with self := { s.self with
      waydroid_vendor_label := gtk_label_set_text s.self.waydroid_vendor_label (some "") } }
    let s := { s with self := { s.self with
      waydroid_version_label := gtk_label_set_text s.self.waydroid_version_label (some "") } }
    let s := set_sensitive .launch_app_button false s
    let s := set_sensitive .remove_app_button false s
    let s := set_sensitive .install_app_button false s
    let s := set_sensitive .app_selector false s
    let s := set_sensitive .show_ui_button false s
    let s := set_sensitive .refresh_app_list_button false s
    let s := set_sensitive .waydroid_uevent_switch false s
    let s := set_sensitive .waydroid_factory_reset false s
    let s := set_sensitive .install_image_button false s
    let s := set_sensitive .install_gapps false s
    set_sensitive .install_vanilla false s

/-! ## Delivery of user gestures and of main-loop sources

GTK delivers input only to a widget for which `gtk_widget_is_sensitive`
holds. A GtkSwitch asked for a new position stores it in `active`, emits
`state-set` with that position and, when the connected handler returns
`FALSE`, runs its default handler, which stores the position as the `state`.
Each handler below is the one `cc_waydroid_panel_init` connects (lines
884-893). -/

/-- The user asks the enable switch for position `is_active`. -/
def request_enabled_switch (is_active spawn_success : Bool) (s : State) : State :=
  if gtk_widget_is_sensitive .waydroid_enabled_switch s.self &&
      s.self.waydroid_enabled_switch.active != is_active then
    let s := { s with self := { s.self with
      waydroid_enabled_switch := { s.self.waydroid_enabled_switch with active := is_active } } }
    let r := cc_waydroid_panel_enable_waydroid is_active spawn_success s
    if r.2 then r.1
    else { r.1 with self := { r.1.self with
      waydroid_enabled_switch := gtk_switch_set_state r.1.self.waydroid_enabled_switch is_active } }
  else s

/-- Emission of `state-set` on the uevent switch for position `is_active`:
the position is stored, the handler runs, and the default handler follows
when the handler returned `FALSE`. -/
def emit_uevent_state_set (is_active : Bool) (s : State) : State :=
  let s := { s with self := { s.self with
    waydroid_uevent_switch := { s.self.waydroid_uevent_switch with active := is_active } } }
  let r := cc_waydroid_panel_toggle_uevent is_active s
  if r.2 then r.1
  else { r.1 with self := { r.1.self with
    waydroid_uevent_switch := gtk_switch_set_state r.1.self.waydroid_uevent_switch is_active } }

/-- The user asks the uevent switch for position `is_active`. -/
def request_uevent_switch (is_active : Bool) (s : State) : State :=
  if gtk_widget_is_sensitive .waydroid_uevent_switch s.self &&
      s.self.waydroid_uevent_switch.active != is_active then
    emit_uevent_state_set is_active s
  else s

/-- The user clicks the install-image button. The handler is connected with
plain `g_signal_connect` (line 891), so `clicked` passes the emitting button
as the first argument and the user data, the panel, as the second. -/
def click_install_image_button (s : State) : State :=
  if gtk_widget_is_sensitive .install_image_button s.self then
    cc_waydroid_panel_install_image .install_image_button .panel s
  else s

/-- The `i`-th pending timeout expires. `uevent` feeds
`reenable_switch_and_update_info`. `gtk_widget_set_sensitive` installed as a
source function is called with the widget alone, so the flag it stores and
the value the main loop takes as its result are whatever the caller left
behind: `sensitive_arg` and `keep`. A source whose function returns `FALSE`
is removed. -/
def dispatch_timeout (i : Nat) (uevent : SyncResult) (sensitive_arg keep : Bool) (s : State) :
    State :=
  match s.timeouts.get? i with
  | none => s
  | some t =>
    match t.func with
    | .reenable_switch_and_update_info =>
      let r := reenable_switch_and_update_info uevent s
      if r.2 then r.1 else { r.1 with timeouts := r.1.timeouts.eraseIdx i }
    | .gtk_widget_set_sensitive w =>
      let s := set_sensitive w sensitive_arg s
      if keep then s else { s with timeouts := s.timeouts.eraseIdx i }

/-! ## Session state read off the panel -/

/-- The session states of the specification. -/
inductive SessionState where
  | NotInstalled
  | Stopped
  | Starting
  | Running
  deriving DecidableEq, Repr

/-- Number of pending bounded waits, the timeouts armed by a successful enable. -/
def wait_armed (s : State) : Nat :=
  s.timeouts.countP (fun t => decide (t.func = .reenable_switch_and_update_info))

/-- The session state a process state stands for: `Starting` while a bounded
wait is armed; otherwise `Running` when the app-dependent controls are
enabled; otherwise `NotInstalled` when the install-runtime button is offered,
and `Stopped` in all other cases. -/
def sessionState (s : State) : SessionState :=
  if 0 < wait_armed s then .Starting
  else if s.self.launch_app_button.sensitive then .Running
  else if s.self.install_waydroid_button.sensitive then .NotInstalled
  else .Stopped

/-- Things that happen to the panel between two handler runs. -/
inductive Event where
  | enable_request (is_active spawn_success : Bool)
  | uevent_request (is_active : Bool)
  | stdout_line (channel : Nat) (line : Option String)
  | timeout (i : Nat) (uevent : SyncResult) (sensitive_arg keep : Bool)
  deriving DecidableEq, Repr

/-- One event. -/
def step (e : Event) (s : State) : State :=
  match e with
  | .enable_request is_active spawn_success => request_enabled_switch is_active spawn_success s
  | .uevent_request is_active => request_uevent_switch is_active s
  | .stdout_line channel line => (child_stdout_callback channel line s).1
  | .timeout i uevent sensitive_arg keep => dispatch_timeout i uevent sensitive_arg keep s

/-- A sequence of events, first to last. -/
def run (evs : List Event) (s : State) : State :=
  evs.foldl (fun s e => step e s) s

/-- The enable/disable requests of a list of (position, spawn result) pairs. -/
def enable_requests (reqs : List (Bool × Bool)) : List Event :=
  reqs.map (fun r => Event.enable_request r.1 r.2)

/-- The wait armed by a successful enable (line 563). -/
def wait_timeout : Timeout :=
  { seconds := 15, func := .reenable_switch_and_update_info }

/-- The condition kept by every event, from a start without timeouts: at most
one wait is armed, and while it is armed the enable switch is insensitive
and on; the uevent switch is offered exactly when the launch button is; and
the launch button is offered only while the enable switch is on. -/
def Consistent (s : State) : Prop :=
  (s.timeouts = [] ∨
    (s.timeouts = [wait_timeout] ∧ s.self.waydroid_enabled_switch.sensitive = false ∧
      s.self.waydroid_enabled_switch.active = true ∧ s.self.launch_app_button.sensitive = false)) ∧
  s.self.waydroid_uevent_switch.sensitive = s.self.launch_app_button.sensitive ∧
  (s.self.launch_app_button.sensitive = true → s.self.waydroid_enabled_switch.active = true)

/-! ## Concrete panels -/

/-- A panel with GTK's default property values (every widget sensitive,
nothing active, no text), before `cc_waydroid_panel_init` has run, in a
process with an empty main loop. The template `cc-waydroid-panel.ui` is not
among the sources, so no property it may override is assumed; the general
theorems quantify over the panel and use this one only as an example. -/
def fresh : State :=
  { self :=
      { parent := ⟨true⟩
        waydroid_enabled_switch := ⟨true, false, false⟩
        waydroid_ip_label := ⟨""⟩
        waydroid_vendor_label := ⟨""⟩
        waydroid_version_label := ⟨""⟩
        app_selector := ⟨true, [], 0⟩
        launch_app_button := ⟨true⟩
        remove_app_button := ⟨true⟩
        install_app_button := ⟨true⟩
        show_ui_button := ⟨true⟩
        refresh_app_list_button := ⟨true⟩
        waydroid_uevent_switch := ⟨true, false, false⟩
        install_waydroid_button := ⟨true, false⟩
        waydroid_factory_reset := ⟨true⟩
        install_vanilla := ⟨true, false⟩
        install_gapps := ⟨true, false⟩
        install_image_button := ⟨true⟩ }
    PackageState := .PACKAGE_STATE_NONE
    timeouts := []
    idles := []
    threads := []
    io_watches := []
    child_watches := 0
    spawned := [] }

/-- A host with the runtime installed, the session stopped and the vanilla
image package installed. -/
def host_stopped_vanilla : InitEnv :=
  { waydroid_exists := true
    waydroid := ⟨true, 0, some "STOPPED\n"⟩
    gapps_exit_status := 1
    vanilla_exit_status := 0
    uevent := ⟨true, 0, some ""⟩ }

/-- The panel after start-up on `host_stopped_vanilla`. -/
def stopped_vanilla : State :=
  cc_waydroid_panel_init host_stopped_vanilla fresh

/-- A host with the runtime installed, the session running, the vanilla image
package installed and uevent forwarding on. -/
def host_running_vanilla : InitEnv :=
  { waydroid_exists := true
    waydroid := ⟨true, 0, some "RUNNING\n"⟩
    gapps_exit_status := 1
    vanilla_exit_status := 0
    uevent := ⟨true, 0, some "true\n"⟩ }

/-- The panel after start-up on `host_running_vanilla`, once the address
probe has shown an address and the app-list probe has listed two apps. -/
def running_shown : State :=
  (update_app_list_idle ["Settings", "Files", ""]
    (update_label_idle (some "192.168.240.112\n")
      (cc_waydroid_panel_init host_running_vanilla fresh)).1).1

/-- The panel `stopped_vanilla` after the session was enabled, the wait
elapsed and the session was disabled again. -/
def stopped_again : State :=
  run [.enable_request true true, .timeout 0 ⟨true, 0, some "true\n"⟩ false false,
    .enable_request false true] stopped_vanilla

/-- The variant picked by the two image toggle buttons. -/
def selected_variant (p : CcWaydroidPanel) : PackageStateValue :=
  if p.install_gapps.active then .PACKAGE_STATE_GAPPS
  else if p.install_vanilla.active then .PACKAGE_STATE_VANILLA
  else .PACKAGE_STATE_NONE

/-- The twelve package names the removal handler compares against (lines
218-223): the protected package set. -/
def ProtectedPackageSet : List String :=
  ["com.android.documentsui", "com.android.contacts", "com.android.camera2",
   "org.lineageos.recorder", "com.android.gallery3d", "org.lineageos.jelly",
   "org.lineageos.eleven", "org.lineageos.etar", "com.android.settings",
   "com.android.calculator2", "com.android.deskclock", "com.android.traceur"]

/-- The lines the session-start command prints, as events. -/
def stdout_lines (ls : List (Nat × Option String)) : List Event :=
  ls.map (fun l => Event.stdout_line l.1 l.2)

/-- An accepted enable whose spawn succeeds, then the lines `ls` on the
start command's output, then the expiry of the first pending timeout. -/
def enable_then_wait (ls : List (Nat × Option String)) (uevent : SyncResult)
    (sensitive_arg keep : Bool) (s : State) : State :=
  step (.timeout 0 uevent sensitive_arg keep)
    (run (stdout_lines ls) (step (.enable_request true true) s))

/-! ## Further GLib string helpers -/

/-- First occurrence of the non-empty `delimiter` in a character list: the
characters before it and the characters after it, or `none` when it does not
occur (C `strstr` followed by the pointer arithmetic of `g_strsplit`). -/
def strstr_split (delimiter : List Char) : List Char → Option (List Char × List Char)
  | [] => none
  | c :: cs =>
    if delimiter.isPrefixOf (c :: cs) then some ([], (c :: cs).drop delimiter.length)
    else
      match strstr_split delimiter cs with
      | none => none
      | some (before, after) => some (c :: before, after)

/-- The `while (--max_tokens && s)` loop of GLib `g_strsplit`, followed by the
append of the remainder; the first argument is `max_tokens` on entry. -/
def g_strsplit_loop (delimiter : List Char) : Nat → List Char → List (List Char)
  | 0, remainder => [remainder]
  | max_tokens + 1, remainder =>
    if max_tokens = 0 then [remainder]
    else
      match strstr_split delimiter remainder with
      | none => [remainder]
      | some (token, rest) => token :: g_strsplit_loop delimiter max_tokens rest

/-- GLib `g_strsplit (string, delimiter, max_tokens)` for a non-empty
delimiter and `max_tokens >= 1`: at most `max_tokens` pieces, the last one
holding the remainder; the empty string gives the empty vector. -/
def g_strsplit (string delimiter : String) (max_tokens : Nat) : List String :=
  if string = "" then []
  else (g_strsplit_loop delimiter.data max_tokens string.data).map String.mk

/-- GLib `g_strconcat (string1, ..., NULL)`: `NULL` when `string1` is `NULL`,
else `string1` followed by the further arguments up to the first `NULL`. -/
def g_strconcat (string1 : Option String) (rest : List (Option String)) : Option String :=
  match string1 with
  | none => none
  | some s1 =>
    some (s1 ++ String.join ((rest.takeWhile Option.isSome).map (fun o => o.getD "")))

/-! ## Workers, idle callbacks and handlers of the app and info controls -/

/-- Function `update_waydroid_ip` (lines 96-115), the body of the address
thread; `r` is what the probe command returned. -/
def update_waydroid_ip (r : SyncResult) (s : State) : State :=
  let s := spawn (.g_spawn_command_line_sync
    "sh -c \"waydroid status | awk -F'\t' '/IP/ \x7bprint $2; exit\x7d'\"") s
  g_idle_add (.update_label_idle r.output) s

/-- Function `cc_waydroid_panel_launch_app_thread` (lines 245-261), the body
of the launch thread. -/
def cc_waydroid_panel_launch_app_thread (pkgname : Option String) (s : State) : State :=
  match pkgname with
  | some pkgname =>
    let launch_command := "waydroid app launch " ++ g_strstrip pkgname
    spawn (.g_spawn_command_line_async launch_command) s
  | none => s

/-- Function `cc_waydroid_panel_launch_app_threaded` (lines 263-271), the
`clicked` handler of the launch button. -/
def cc_waydroid_panel_launch_app_threaded (lookup : SyncResult) (s : State) : State :=
  let r := get_selected_app_pkgname lookup s
  g_thread_new (.cc_waydroid_panel_launch_app_thread r.2) r.1

/-- Function `update_vendor_idle` (lines 273-284). -/
def update_vendor_idle (waydroid_vendor_output : Option String) (s : State) : State × Bool :=
  ({ s with self := { s.self with
      waydroid_vendor_label :=
        gtk_label_set_text s.self.waydroid_vendor_label waydroid_vendor_output } },
    G_SOURCE_REMOVE)

/-- Function `update_waydroid_vendor` (lines 286-305), the body of the vendor
thread. -/
def update_waydroid_vendor (r : SyncResult) (s : State) : State :=
  let s := spawn (.g_spawn_command_line_sync
    "sh -c \"waydroid status | awk -F'\t' '/Vendor/ \x7bprint $2; exit\x7d'\"") s
  g_idle_add (.update_vendor_idle r.output) s

/-- Function `update_version_idle` (lines 313-324). -/
def update_version_idle (new_version_output : Option String) (s : State) : State × Bool :=
  ({ s with self := { s.self with
      waydroid_version_label :=
        gtk_label_set_text s.self.waydroid_version_label new_version_output } },
    G_SOURCE_REMOVE)

/-- Function `update_waydroid_version` (lines 326-350), the body of the
version thread. With a `NULL` output `g_strsplit` hands back `NULL` and
`parts[0]` dereferences it: the process does not go on, which is `none`.
`parts[i]` past the last piece reads the vector's `NULL` terminator. -/
def update_waydroid_version (r : SyncResult) (s : State) : Option State :=
  let s := spawn (.g_spawn_command_line_sync
    "sh -c \"waydroid prop get ro.lineage.display.version\"") s
  match r.output with
  | none => none
  | some waydroid_version_output =>
    let parts := g_strsplit waydroid_version_output "-" 3
    let new_version_output := g_strconcat (parts.get? 0) [some "-", parts.get? 1]
    some (g_idle_add (.update_version_idle new_version_output) s)

/-- Function `cc_waydroid_refresh_button` (lines 358-367), the `clicked`
handler of the refresh button. -/
def cc_waydroid_refresh_button (s : State) : State :=
  let s := update_waydroid_ip_threaded s
  let s := update_waydroid_vendor_threaded s
  let s := update_waydroid_version_threaded s
  update_app_list_threaded s

/-- Function `cc_waydroid_factory_reset_threaded` (lines 463-480), the
`clicked` handler of the factory-reset button; `home_dir` is
`g_get_home_dir ()` and `spawn_success` the return value of `g_spawn_async`. -/
def cc_waydroid_factory_reset_threaded (home_dir : String) (spawn_success : Bool) (s : State) :
    State :=
  let command := "rm -rf $HOME/.local/share/waydroid"
  let home_env := "HOME=" ++ home_dir
  let argv := ["pkexec", "env", home_env, "/bin/sh", "-c", command]
  let s := spawn (.g_spawn_async argv) s
  if !spawn_success then s
  else
    let s := set_sensitive .waydroid_factory_reset false s
    g_timeout_add_seconds 15 (.gtk_widget_set_sensitive .waydroid_factory_reset) s

/-- GTK `gtk_toggle_button_get_active` on a widget pointer: a widget that is
not a toggle button fails the type check and the call gives `FALSE`. -/
def gtk_toggle_button_get_active (w : Widget) (p : CcWaydroidPanel) : Bool :=
  match w with
  | .install_waydroid_button => p.install_waydroid_button.active
  | .install_vanilla => p.install_vanilla.active
  | .install_gapps => p.install_gapps.active
  | _ => false

/-- GTK `gtk_toggle_button_set_active` on a widget pointer: a widget that is
not a toggle button fails the type check and nothing is stored. -/
def gtk_toggle_button_set_active (w : Widget) (b : Bool) (p : CcWaydroidPanel) :
    CcWaydroidPanel :=
  match w with
  | .install_waydroid_button =>
    { p with install_waydroid_button := { p.install_waydroid_button with active := b } }
  | .install_vanilla => { p with install_vanilla := { p.install_vanilla with active := b } }
  | .install_gapps => { p with install_gapps := { p.install_gapps with active := b } }
  | _ => p

/-- Function `cc_waydroid_panel_install_waydroid_thread` (lines 667-707), the
body of the runtime-install thread. `success` is the return value of the
install command's spawn and `waydroid_exists` the file test made after it. -/
def cc_waydroid_panel_install_waydroid_thread (data_self button : Widget) (uid_str : String)
    (success waydroid_exists : Bool) (s : State) : State :=
  let install_command := "pkexec env XDG_RUNTIME_DIR=/run/user/" ++ uid_str ++ " x-terminal-emulator -e 'pacman -S chaotic-aur --noconfirm && chaotic-install && pacman -Syy && pacman -S waydroid binder_linux-dkms --noconfirm && systemctl enable --now waydroid-container'"
  let s := spawn (.g_spawn_command_line_sync install_command) s
  let s :=
    if success && waydroid_exists then g_idle_add (.cc_waydroid_panel_init data_self) s
    else s
  { s with self := gtk_toggle_button_set_active button false s.self }

/-- Function `cc_waydroid_panel_install_waydroid` (lines 709-721), with its
two parameters in the order of the C declaration. -/
def cc_waydroid_panel_install_waydroid (self_arg button : Widget) (s : State) : State :=
  if !gtk_toggle_button_get_active button s.self then s
  else g_thread_new (.cc_waydroid_panel_install_waydroid_thread self_arg button) s

/-! ## Delivery of the session-affecting controls and of the refresh button -/

/-- The cooldown armed by a dispatched factory reset (line 476). -/
def cooldown_timeout : Timeout :=
  { seconds := 15, func := .gtk_widget_set_sensitive .waydroid_factory_reset }

/-- The user clicks the factory-reset button. -/
def click_factory_reset_button (home_dir : String) (spawn_success : Bool) (s : State) : State :=
  if gtk_widget_is_sensitive .waydroid_factory_reset s.self then
    cc_waydroid_factory_reset_threaded home_dir spawn_success s
  else s

/-- The user clicks the refresh button. -/
def click_refresh_button (s : State) : State :=
  if gtk_widget_is_sensitive .refresh_app_list_button s.self then cc_waydroid_refresh_button s
  else s

/-- The `i`-th started thread, when it is an image-install thread, runs its
body to the end and is gone. -/
def finish_install_image_thread (i : Nat) (uid_str : String) (r : SyncResult) (s : State) :
    State :=
  match s.threads.get? i with
  | some (.cc_waydroid_panel_install_image_thread data_self button) =>
    cc_waydroid_panel_install_image_thread data_self button uid_str r
      { s with threads := s.threads.eraseIdx i }
  | _ => s

/-- Enable and disable requests, timer expiries, factory resets, image
installs with the end of their threads, and refresh clicks. -/
inductive SessionEvent where
  | enable_request (is_active spawn_success : Bool)
  | timeout (i : Nat) (uevent : SyncResult) (sensitive_arg keep : Bool)
  | factory_reset (home_dir : String) (spawn_success : Bool)
  | install_image
  | install_image_done (i : Nat) (uid_str : String) (r : SyncResult)
  | refresh
  deriving DecidableEq, Repr

/-- One session event. -/
def session_step (e : SessionEvent) (s : State) : State :=
  match e with
  | .enable_request is_active spawn_success => request_enabled_switch is_active spawn_success s
  | .timeout i uevent sensitive_arg keep => dispatch_timeout i uevent sensitive_arg keep s
  | .factory_reset home_dir spawn_success => click_factory_reset_button home_dir spawn_success s
  | .install_image => click_install_image_button s
  | .install_image_done i uid_str r => finish_install_image_thread i uid_str r s
  | .refresh => click_refresh_button s

/-- A sequence of session events, first to last. -/
def session_run (evs : List SessionEvent) (s : State) : State :=
  evs.foldl (fun s e => session_step e s) s

/-- An image-install thread holds the panel as its button; any other thread
passes. -/
def holds_panel : Thread → Bool
  | .cc_waydroid_panel_install_image_thread _ button => decide (button = Widget.panel)
  | _ => true

/-- A pending timeout that is the bounded wait or a factory-reset cooldown. -/
def is_wait_or_cooldown (t : Timeout) : Bool :=
  decide (t = wait_timeout) || decide (t = cooldown_timeout)

/-- The condition kept by every session event: only waits and factory-reset
cooldowns are pending, at most one of them a wait; while a wait is pending
the enable switch is insensitive and on; while the launch button is offered
no wait is pending, the enable switch is on and the install-image button is
insensitive; the refresh button is offered exactly when the launch button
is; and every started image-install thread holds the panel as its button. -/
def Gated (s : State) : Prop :=
  s.timeouts.all is_wait_or_cooldown = true ∧
  wait_armed s ≤ 1 ∧
  (0 < wait_armed s → s.self.waydroid_enabled_switch.sensitive = false ∧
    s.self.waydroid_enabled_switch.active = true) ∧
  (s.self.launch_app_button.sensitive = true → wait_armed s = 0 ∧
    s.self.waydroid_enabled_switch.active = true ∧
    s.self.install_image_button.sensitive = false) ∧
  s.self.refresh_app_list_button.sensitive = s.self.launch_app_button.sensitive ∧
  s.threads.all holds_panel = true

/-! ## Wording of the specification, for comparison with the code -/

/-- In the claim's words: the non-empty lines of the output split on newline,
in their original order and with duplicates kept. -/
def nonempty_lines (output : String) : List String :=
  ((output.data.splitOn (Char.ofNat 10)).filter (fun line => decide (line ≠ []))).map String.mk

/-- In the claim's words: the first two dash-separated fields joined by '-',
that is the text up to but not including the second '-'. -/
def text_before_second_dash (output : String) : String :=
  let first := output.data.takeWhile (fun c => c != '-')
  let after_first := (output.data.dropWhile (fun c => c != '-')).tail
  String.mk (first ++ '-' :: after_first.takeWhile (fun c => c != '-'))

/-! ## Further concrete panels -/

/-- The running panel `running_shown` with the session disabled, and the
factory reset then dispatched: its cooldown is pending. -/
def reset_pending : State :=
  session_run [.enable_request false true, .factory_reset "/home/user" true] running_shown

/-- The panel after start-up on `host_running_vanilla`, once the app-list
probe has listed a user-installed app and a system app; the first is
selected. -/
def running_notes : State :=
  (update_app_list_idle ["Notes", "Settings"]
    (cc_waydroid_panel_init host_running_vanilla fresh)).1

/-- The panel `running_notes` right after the remove handler has run for the
selected app, the lookup having answered with its package name. -/
def notes_removal_dispatched : State :=
  cc_waydroid_panel_uninstall_app ⟨true, 0, some "org.example.notes\n"⟩ running_notes

/-- A host with the runtime installed, the session stopped and the gapps
image package installed. -/
def host_stopped_gapps : InitEnv :=
  { waydroid_exists := true
    waydroid := ⟨true, 0, some "STOPPED\n"⟩
    gapps_exit_status := 0
    vanilla_exit_status := 0
    uevent := ⟨true, 0, some ""⟩ }

/-- The panel after start-up on `host_stopped_gapps`, once the user has
picked the vanilla toggle. -/
def gapps_wants_vanilla : State :=
  (on_install_vanilla_toggled (cc_waydroid_panel_init host_stopped_gapps fresh)).1

/-- A host without the runtime. -/
def host_not_installed : InitEnv :=
  { waydroid_exists := false
    waydroid := ⟨false, 0, none⟩
    gapps_exit_status := 1
    vanilla_exit_status := 1
    uevent := ⟨false, 0, none⟩ }

/-- The panel after start-up on `host_not_installed`, with the install-runtime
toggle button pressed. -/
def install_pressed : State :=
  { cc_waydroid_panel_init host_not_installed fresh with
    self := gtk_toggle_button_set_active .install_waydroid_button true
      (cc_waydroid_panel_init host_not_installed fresh).self }

set_option maxRecDepth 8000

/-! ### Auxiliary facts -/

@[simp]
theorem gtk_switch_set_state_sensitive (sw : GtkSwitch) (b : Bool) :
    (gtk_switch_set_state sw b).sensitive = sw.sensitive := by
  unfold gtk_switch_set_state; split <;> rfl

@[simp]
theorem gtk_switch_set_state_state (sw : GtkSwitch) (b : Bool) :
    (gtk_switch_set_state sw b).state = b := by
  unfold gtk_switch_set_state; split <;> simp_all

theorem gtk_switch_set_state_of_active (sw : GtkSwitch) (b : Bool) (h : sw.active = b) :
    gtk_switch_set_state sw b = { sw with state := b } := by
  unfold gtk_switch_set_state
  split
  · next hs => cases sw; simp_all
  · cases sw; simp_all

theorem gtk_switch_set_both (sw : GtkSwitch) (b : Bool) :
    gtk_switch_set_active (gtk_switch_set_state sw b) b = ⟨sw.sensitive, b, b⟩ := by
  cases sw with
  | mk sens act st =>
    cases act <;> cases st <;> cases b <;> rfl

theorem enable_handler_returns_false (state ok : Bool) (s : State) :
    (cc_waydroid_panel_enable_waydroid state ok s).2 = false := by
  cases state <;> cases ok <;> rfl

theorem toggle_uevent_returns_false (state : Bool) (s : State) :
    (cc_waydroid_panel_toggle_uevent state s).2 = false := by
  cases h : s.self.waydroid_enabled_switch.state <;> simp [cc_waydroid_panel_toggle_uevent, h]

theorem reenable_returns_false (uevent : SyncResult) (s : State) :
    (reenable_switch_and_update_info uevent s).2 = false := by
  rfl

theorem step_consistent (e : Event) (s : State) (h : Consistent s) : Consistent (step e s) := by
  obtain ⟨h1, h2, h3⟩ := h
  cases e with
  | enable_request is_active ok =>
    simp only [step, request_enabled_switch, enable_handler_returns_false]
    split
    · rename_i hc
      simp [gtk_widget_is_sensitive, gtk_widget_get_sensitive] at hc
      obtain ⟨⟨hp, hs⟩, ha⟩ := hc
      have ht : s.timeouts = [] := by
        rcases h1 with h1 | h1
        · exact h1
        · rw [h1.2.1] at hs; exact absurd hs (by decide)
      cases is_active <;> cases ok <;>
        simp_all [Consistent, cc_waydroid_panel_enable_waydroid, spawn, set_sensitive,
          gtk_widget_set_sensitive, g_timeout_add_seconds, gtk_switch_set_state_of_active,
          update_waydroid_ip_threaded, update_waydroid_vendor_threaded,
          update_waydroid_version_threaded, g_thread_new, gtk_drop_down_set_model,
          gtk_label_set_text, wait_timeout]
    · exact ⟨h1, h2, h3⟩
  | uevent_request is_active =>
    simp only [step, request_uevent_switch, emit_uevent_state_set, toggle_uevent_returns_false]
    split
    · cases hst : s.self.waydroid_enabled_switch.state <;>
        simp [cc_waydroid_panel_toggle_uevent, hst, spawn, Consistent, h2] <;>
        exact ⟨h1, h3⟩
    · exact ⟨h1, h2, h3⟩
  | stdout_line channel line =>
    simp only [step, child_stdout_callback]
    split
    · split
      · exact ⟨h1, h2, h3⟩
      · exact ⟨h1, h2, h3⟩
    · exact ⟨h1, h2, h3⟩
  | timeout i uevent a k =>
    simp only [step, dispatch_timeout]
    rcases h1 with h1 | h1
    · simp [h1]
      exact ⟨Or.inl h1, h2, h3⟩
    · obtain ⟨ht, hs, ha, hl⟩ := h1
      cases i with
      | zero =>
        simp [ht, wait_timeout, reenable_switch_and_update_info, G_SOURCE_REMOVE, Consistent,
          spawn, set_sensitive, gtk_widget_set_sensitive, update_waydroid_ip_threaded,
          update_waydroid_vendor_threaded, update_waydroid_version_threaded,
          update_app_list_threaded, g_thread_new, ha, gtk_switch_set_both]
        split <;> rfl
      | succ n =>
        simp [ht]
        exact ⟨Or.inr ⟨ht, hs, ha, hl⟩, h2, h3⟩

theorem run_consistent (evs : List Event) (s : State) (h : Consistent s) :
    Consistent (run evs s) := by
  induction evs generalizing s with
  | nil => exact h
  | cons e es ih => exact ih (step e s) (step_consistent e s h)

theorem run_cons (e : Event) (es : List Event) (s : State) :
    run (e :: es) s = run es (step e s) := rfl

theorem starting_timeouts (s : State) (h : Consistent s) (hs : sessionState s = .Starting) :
    s.timeouts = [wait_timeout] ∧ s.self.waydroid_enabled_switch.sensitive = false := by
  rcases h.1 with h1 | h1
  · simp [sessionState, wait_armed, h1] at hs
    split at hs <;> try split at hs
    all_goals simp at hs
  · exact ⟨h1.1, h1.2.1⟩

theorem request_dropped (s : State) (hs : s.self.waydroid_enabled_switch.sensitive = false)
    (a ok : Bool) : request_enabled_switch a ok s = s := by
  simp [request_enabled_switch, gtk_widget_is_sensitive, gtk_widget_get_sensitive, hs]

theorem requests_dropped (s : State) (hs : s.self.waydroid_enabled_switch.sensitive = false)
    (reqs : List (Bool × Bool)) : run (enable_requests reqs) s = s := by
  induction reqs with
  | nil => rfl
  | cons r rs ih =>
    simp only [enable_requests, List.map_cons, run_cons, step] at ih ⊢
    rw [request_dropped s hs]
    exact ih

theorem running_from (e : Event) (s : State) (h : Consistent s)
    (hr : sessionState (step e s) = .Running) :
    sessionState s = .Starting ∨ sessionState s = .Running := by
  obtain ⟨h1, h2, h3⟩ := h
  rcases h1 with h1 | h1
  · right
    have hl : (step e s).self.launch_app_button.sensitive = true := by
      simp only [sessionState] at hr
      split at hr
      · cases hr
      · split at hr
        · assumption
        · split at hr <;> cases hr
    have hb : s.self.launch_app_button.sensitive = true := by
      cases e with
      | enable_request a ok =>
        simp only [step, request_enabled_switch, enable_handler_returns_false] at hl
        split at hl
        · cases a <;> cases ok <;>
            simp_all [cc_waydroid_panel_enable_waydroid, spawn, set_sensitive,
              gtk_widget_set_sensitive, g_timeout_add_seconds,
              update_waydroid_ip_threaded, update_waydroid_vendor_threaded,
              update_waydroid_version_threaded, g_thread_new]
        · exact hl
      | uevent_request a =>
        simp only [step, request_uevent_switch, emit_uevent_state_set,
          toggle_uevent_returns_false] at hl
        split at hl
        · cases hst : s.self.waydroid_enabled_switch.state <;>
            simpa [cc_waydroid_panel_toggle_uevent, hst, spawn] using hl
        · exact hl
      | stdout_line channel line =>
        simp only [step, child_stdout_callback] at hl
        split at hl
        · split at hl <;> exact hl
        · exact hl
      | timeout i uevent a k =>
        simpa [step, dispatch_timeout, h1] using hl
    simp [sessionState, wait_armed, h1, hb]
  · left
    simp [sessionState, wait_armed, h1.1, wait_timeout]

theorem cc_waydroid_panel_init_consistent (env : InitEnv) (b : State) (hb : b.timeouts = []) :
    Consistent (cc_waydroid_panel_init env b) := by
  unfold Consistent cc_waydroid_panel_init
  cases env.waydroid_exists
  · simp [set_sensitive, gtk_widget_set_sensitive, hb, gtk_switch_set_both, gtk_label_set_text]
  · cases hrun : g_str_has_prefix env.waydroid.output "RUNNING" <;>
    cases hg : decide (env.gapps_exit_status = 0) <;>
    cases hv : decide (env.vanilla_exit_status = 0) <;>
    simp_all [set_sensitive, gtk_widget_set_sensitive, hb, gtk_switch_set_both, gtk_label_set_text,
      check_package_and_toggle, on_install_gapps_toggled, on_install_vanilla_toggled, spawn,
      update_waydroid_ip_threaded, update_waydroid_vendor_threaded,
      update_waydroid_version_threaded, update_app_list_threaded, g_thread_new]

theorem run_append (xs ys : List Event) (s : State) :
    run (xs ++ ys) s = run ys (run xs s) := by
  simp [run, List.foldl_append]

theorem stdout_lines_keep (ls : List (Nat × Option String)) (s : State) :
    (run (stdout_lines ls) s).self = s.self ∧ (run (stdout_lines ls) s).timeouts = s.timeouts := by
  induction ls generalizing s with
  | nil => exact ⟨rfl, rfl⟩
  | cons l ls ih =>
    simp only [stdout_lines, List.map_cons, run_cons] at ih ⊢
    obtain ⟨h1, h2⟩ := ih (step (.stdout_line l.1 l.2) s)
    rw [h1, h2]
    simp only [step, child_stdout_callback]
    split
    · split <;> exact ⟨rfl, rfl⟩
    · exact ⟨rfl, rfl⟩

theorem uevent_request_dropped (s : State) (h : Consistent s)
    (hr : sessionState s ≠ .Running) (desired : Bool) :
    request_uevent_switch desired s = s := by
  obtain ⟨h1, h2, -⟩ := h
  have hl : s.self.launch_app_button.sensitive = false := by
    rcases h1 with h1 | h1
    · cases hb : s.self.launch_app_button.sensitive
      · rfl
      · exact absurd (by simp [sessionState, wait_armed, h1, hb]) hr
    · exact h1.2.2.2
  simp [request_uevent_switch, gtk_widget_is_sensitive, gtk_widget_get_sensitive, h2, hl]

/-! ### Auxiliary facts for the session events -/

theorem countP_eraseIdx_of_true {α : Type} (p : α → Bool) (l : List α) (i : Nat) (t : α)
    (h : l[i]? = some t) (hp : p t = true) :
    (l.eraseIdx i).countP p + 1 = l.countP p := by
  induction l generalizing i with
  | nil => simp at h
  | cons x xs ih =>
    cases i with
    | zero =>
      simp at h
      subst h
      simp [List.countP_cons, hp]
    | succ n =>
      simp at h
      have := ih n h
      simp only [List.eraseIdx_cons_succ, List.countP_cons]
      omega

theorem countP_eraseIdx_of_false {α : Type} (p : α → Bool) (l : List α) (i : Nat) (t : α)
    (h : l[i]? = some t) (hp : p t = false) :
    (l.eraseIdx i).countP p = l.countP p := by
  induction l generalizing i with
  | nil => simp at h
  | cons x xs ih =>
    cases i with
    | zero =>
      simp at h
      subst h
      simp [List.countP_cons, hp]
    | succ n =>
      simp at h
      have := ih n h
      simp only [List.eraseIdx_cons_succ, List.countP_cons]
      omega

theorem wait_armed_append_wait (s : State) (l : List Timeout) (h : s.timeouts = l ++ [wait_timeout]) :
    wait_armed s = l.countP (fun t => decide (t.func = .reenable_switch_and_update_info)) + 1 := by
  simp [wait_armed, h, wait_timeout, List.countP_append]

theorem wait_armed_append_cooldown (s : State) (l : List Timeout)
    (h : s.timeouts = l ++ [cooldown_timeout]) :
    wait_armed s = l.countP (fun t => decide (t.func = .reenable_switch_and_update_info)) := by
  simp [wait_armed, h, cooldown_timeout, List.countP_append]

theorem all_eraseIdx {α : Type} (p : α → Bool) (l : List α) (i : Nat) (h : l.all p = true) :
    (l.eraseIdx i).all p = true := by
  rw [List.all_eq_true] at h ⊢
  intro x hx
  exact h x (List.mem_of_mem_eraseIdx hx)

theorem all_getElem {α : Type} (p : α → Bool) (l : List α) (i : Nat) (t : α)
    (h : l.all p = true) (ht : l[i]? = some t) : p t = true := by
  rw [List.all_eq_true] at h
  exact h t (List.getElem?_mem ht)

theorem session_step_gated (e : SessionEvent) (s : State) (h : Gated s) :
    Gated (session_step e s) := by
  obtain ⟨g1, g2, g3, g4, g5, g6⟩ := h
  generalize hn : wait_armed s = n at g2 g3 g4
  simp only [wait_armed] at hn
  cases e with
  | enable_request a ok =>
    simp only [session_step, request_enabled_switch, enable_handler_returns_false]
    split
    · rename_i hc
      simp [gtk_widget_is_sensitive, gtk_widget_get_sensitive] at hc
      obtain ⟨⟨hp, hs⟩, ha⟩ := hc
      have hw : n = 0 := by
        by_contra hne
        have := (g3 (Nat.pos_of_ne_zero hne)).1
        simp [hs] at this
      subst hw
      have hl : a = true → s.self.launch_app_button.sensitive = false := by
        intro hat
        subst hat
        cases hb : s.self.launch_app_button.sensitive
        · rfl
        · have := (g4 hb).2.1
          simp [this] at ha
      cases a <;> cases ok <;>
        refine ⟨?_, ?_, ?_, ?_, ?_, ?_⟩ <;>
        simp [wait_armed, cc_waydroid_panel_enable_waydroid, spawn, set_sensitive,
          gtk_widget_set_sensitive, g_timeout_add_seconds, gtk_switch_set_state_of_active,
          update_waydroid_ip_threaded, update_waydroid_vendor_threaded,
          update_waydroid_version_threaded, g_thread_new, gtk_drop_down_set_model,
          gtk_label_set_text, List.countP_append, List.all_append, holds_panel,
          is_wait_or_cooldown, wait_timeout, hn, g1, g6, g5, hl]
    · subst hn; exact ⟨g1, g2, g3, g4, g5, g6⟩
  | timeout i uevent arg keep =>
    simp only [session_step, dispatch_timeout]
    cases ht : s.timeouts.get? i with
    | none => subst hn; exact ⟨g1, g2, g3, g4, g5, g6⟩
    | some t =>
      have ht2 : s.timeouts[i]? = some t := by simpa using ht
      have hok := all_getElem is_wait_or_cooldown s.timeouts i t g1 ht2
      simp only [is_wait_or_cooldown, Bool.or_eq_true, decide_eq_true_eq] at hok
      rcases hok with hwt | hcd
      · subst hwt
        have hcount := countP_eraseIdx_of_true
          (fun t : Timeout => decide (t.func = .reenable_switch_and_update_info)) s.timeouts i
          wait_timeout ht2 (by decide)
        have hea := (g3 (by omega)).2
        have hzero : List.countP
            (fun t : Timeout => decide (t.func = .reenable_switch_and_update_info))
            (s.timeouts.eraseIdx i) = 0 := by omega
        refine ⟨?_, ?_, ?_, ?_, ?_, ?_⟩ <;>
          simp [wait_timeout, reenable_returns_false, wait_armed, reenable_switch_and_update_info,
            spawn, set_sensitive, gtk_widget_set_sensitive, update_waydroid_ip_threaded,
            update_waydroid_vendor_threaded, update_waydroid_version_threaded,
            update_app_list_threaded, g_thread_new, List.all_append, holds_panel,
            all_eraseIdx, g1, g6, hzero, hea, G_SOURCE_REMOVE, gtk_switch_set_both]
      · subst hcd
        have hcount := countP_eraseIdx_of_false
          (fun t : Timeout => decide (t.func = .reenable_switch_and_update_info)) s.timeouts i
          cooldown_timeout ht2 (by decide)
        cases keep <;>
          refine ⟨?_, ?_, ?_, ?_, ?_, ?_⟩ <;>
          simp [cooldown_timeout, wait_armed, set_sensitive, gtk_widget_set_sensitive,
            all_eraseIdx, g1, g6, g5, hcount, hn, g2] <;>
          first | exact g3 | exact g4
  | factory_reset home ok =>
    simp only [session_step, click_factory_reset_button]
    split
    · cases ok <;>
        refine ⟨?_, ?_, ?_, ?_, ?_, ?_⟩ <;>
        simp [cc_waydroid_factory_reset_threaded, spawn, set_sensitive,
          gtk_widget_set_sensitive, g_timeout_add_seconds, wait_armed, List.countP_append,
          List.all_append, is_wait_or_cooldown, cooldown_timeout, g1, g2, g5, g6, hn] <;>
        first | exact g3 | exact g4
    · subst hn; exact ⟨g1, g2, g3, g4, g5, g6⟩
  | install_image =>
    simp only [session_step, click_install_image_button]
    split
    · refine ⟨?_, ?_, ?_, ?_, ?_, ?_⟩ <;>
        simp [cc_waydroid_panel_install_image, set_sensitive, gtk_widget_set_sensitive,
          g_thread_new, wait_armed, List.all_append, holds_panel, g1, g2, g5, g6, hn] <;>
        first | exact g3 | exact g4
    · subst hn; exact ⟨g1, g2, g3, g4, g5, g6⟩
  | install_image_done i uid r =>
    simp only [session_step, finish_install_image_thread]
    cases ht : s.threads.get? i with
    | none => subst hn; exact ⟨g1, g2, g3, g4, g5, g6⟩
    | some t =>
      have ht2 : s.threads[i]? = some t := by simpa using ht
      have hok := all_getElem holds_panel s.threads i t g6 ht2
      cases t with
      | cc_waydroid_panel_install_image_thread a b =>
        simp only [holds_panel, decide_eq_true_eq] at hok
        subst hok
        cases hps : s.PackageState <;> cases hr : (r.success && r.exit_status == 0) <;>
          refine ⟨?_, ?_, ?_, ?_, ?_, ?_⟩ <;>
          simp [cc_waydroid_panel_install_image_thread, hps, hr, spawn, g_idle_add,
            set_sensitive, gtk_widget_set_sensitive, wait_armed, all_eraseIdx,
            g1, g2, g5, g6, hn] <;>
          first | exact g3 | exact g4
      | _ => subst hn; exact ⟨g1, g2, g3, g4, g5, g6⟩
  | refresh =>
    simp only [session_step, click_refresh_button]
    split
    · refine ⟨?_, ?_, ?_, ?_, ?_, ?_⟩ <;>
        simp [cc_waydroid_refresh_button, update_waydroid_ip_threaded,
          update_waydroid_vendor_threaded, update_waydroid_version_threaded,
          update_app_list_threaded, g_thread_new, wait_armed, List.all_append, holds_panel,
          g1, g2, g5, g6, hn] <;>
        first | exact g3 | exact g4
    · subst hn; exact ⟨g1, g2, g3, g4, g5, g6⟩

theorem session_run_gated (evs : List SessionEvent) (s : State) (h : Gated s) :
    Gated (session_run evs s) := by
  induction evs generalizing s with
  | nil => exact h
  | cons e es ih => exact ih (session_step e s) (session_step_gated e s h)

theorem split_chars_eq_splitOnP (p : Char → Bool) (cs : List Char) :
    split_chars p cs = cs.splitOnP p := by
  induction cs with
  | nil => simp [split_chars]
  | cons c cs ih =>
    simp only [split_chars, List.splitOnP_cons, ih]
    split
    · rfl
    · cases h : List.splitOnP p cs with
      | nil => exact absurd h (List.splitOnP_ne_nil p cs)
      | cons t ts => simp

theorem filter_map_mk (l : List (List Char)) :
    (l.map String.mk).filter (fun app => decide (app ≠ "")) =
      (l.filter (fun line => decide (line ≠ []))).map String.mk := by
  induction l with
  | nil => rfl
  | cons x xs ih =>
    have hx : (String.mk x = "") ↔ x = [] := by
      constructor
      · intro h
        have := congrArg String.data h
        simpa using this
      · intro h
        subst h
        rfl
    by_cases hxe : x = []
    · subst hxe
      simpa using ih
    · have : String.mk x ≠ "" := fun h => hxe (hx.mp h)
      simpa [List.filter_cons, hxe, this] using ih

theorem g_strsplit_set_lines (output : String) (h : output ≠ "") :
    (g_strsplit_set output "\n").filter (fun app => decide (app ≠ "")) =
      nonempty_lines output := by
  have hd : (fun c => ("\n" : String).data.contains c) = (fun c => c == Char.ofNat 10) := by
    funext c
    have : ("\n" : String).data = [Char.ofNat 10] := rfl
    rw [this]
    simp only [List.contains, List.elem]
    cases (c == Char.ofNat 10) <;> rfl
  simp only [g_strsplit_set, h, if_false, nonempty_lines, split_chars_eq_splitOnP, hd,
    filter_map_mk, List.splitOn]

theorem strstr_split_dash_none (cs : List Char) (h : cs.count '-' = 0) :
    strstr_split ['-'] cs = none := by
  induction cs with
  | nil => rfl
  | cons c cs ih =>
    have hc : c ≠ '-' := by
      intro hc
      subst hc
      simp at h
    have hcs : cs.count '-' = 0 := by
      simpa [List.count_cons, hc] using h
    have hc2 : ¬ '-' = c := fun h => hc h.symm
    simp [strstr_split, ih hcs, hc, hc2, List.isPrefixOf]

theorem strstr_split_dash_some (cs : List Char) (h : 0 < cs.count '-') :
    strstr_split ['-'] cs =
      some (cs.takeWhile (fun c => c != '-'), (cs.dropWhile (fun c => c != '-')).tail) := by
  induction cs with
  | nil => simp at h
  | cons c cs ih =>
    by_cases hc : c = '-'
    · subst hc
      simp [strstr_split, List.isPrefixOf]
    · have hcs : 0 < cs.count '-' := by
        simpa [List.count_cons, hc] using h
      have hc2 : ¬ '-' = c := fun h => hc h.symm
      simp [strstr_split, ih hcs, hc, hc2, List.isPrefixOf]

theorem dash_decompose (cs : List Char) (h : 0 < cs.count '-') :
    cs = cs.takeWhile (fun c => c != '-') ++
      '-' :: (cs.dropWhile (fun c => c != '-')).tail ∧
    (cs.takeWhile (fun c => c != '-')).count '-' = 0 ∧
    ((cs.dropWhile (fun c => c != '-')).tail).count '-' + 1 = cs.count '-' := by
  induction cs with
  | nil => simp at h
  | cons c cs ih =>
    by_cases hc : c = '-'
    · subst hc
      simp
    · have hcs : 0 < cs.count '-' := by
        simpa [List.count_cons, hc] using h
      obtain ⟨h1, h2, h3⟩ := ih hcs
      simp [hc, List.count_cons, h2]
      exact ⟨h1, h3⟩

theorem g_strsplit_loop_dash_0 (cs : List Char) (h : cs.count '-' = 0) :
    g_strsplit_loop ['-'] 3 cs = [cs] := by
  simp [g_strsplit_loop, strstr_split_dash_none cs h]

theorem g_strsplit_loop_dash_1 (cs : List Char) (h : cs.count '-' = 1) :
    g_strsplit_loop ['-'] 3 cs =
      [cs.takeWhile (fun c => c != '-'), (cs.dropWhile (fun c => c != '-')).tail] := by
  have hpos : 0 < cs.count '-' := by omega
  obtain ⟨-, -, h3⟩ := dash_decompose cs hpos
  have hr : ((cs.dropWhile (fun c => c != '-')).tail).count '-' = 0 := by omega
  simp [g_strsplit_loop, strstr_split_dash_some cs hpos, strstr_split_dash_none _ hr]

theorem g_strsplit_loop_dash_2 (cs : List Char) (h : 2 ≤ cs.count '-') :
    g_strsplit_loop ['-'] 3 cs =
      [cs.takeWhile (fun c => c != '-'),
       ((cs.dropWhile (fun c => c != '-')).tail).takeWhile (fun c => c != '-'),
       ((cs.dropWhile (fun c => c != '-')).tail.dropWhile (fun c => c != '-')).tail] := by
  have hpos : 0 < cs.count '-' := by omega
  obtain ⟨-, -, h3⟩ := dash_decompose cs hpos
  have hr : 0 < ((cs.dropWhile (fun c => c != '-')).tail).count '-' := by omega
  simp [g_strsplit_loop, strstr_split_dash_some cs hpos, strstr_split_dash_some _ hr]

theorem ne_empty_of_data (output : String) (h : output.data ≠ []) : output ≠ "" := by
  intro he
  subst he
  exact h rfl

theorem version_idles (success : Bool) (exit_status : Int) (output : String) (s : State) :
    (update_waydroid_version ⟨success, exit_status, some output⟩ s).map (fun t => t.idles) =
      some (s.idles ++ [.update_version_idle
        (g_strconcat ((g_strsplit output "-" 3).get? 0)
          [some "-", (g_strsplit output "-" 3).get? 1])]) := rfl

/-! ### The claims -/

/-- C1: along every sequence of enable/disable requests, output lines and
timer expiries from a consistent start, (a) an event never takes the session
from Stopped to Running; (b) while the session is Starting the enable switch
is insensitive, exactly one wait is armed and every further enable or disable
request leaves the whole process state as it is; (c) an enable request that
is accepted and whose spawn succeeds leads to Starting, adds exactly the one
session-start command to the spawn log and arms exactly the one wait. -/
theorem C1_enable_goes_through_starting (s0 : State) (h0 : Consistent s0) (evs : List Event) :
    (∀ e, sessionState (run evs s0) = .Stopped →
      sessionState (step e (run evs s0)) ≠ .Running) ∧
    (sessionState (run evs s0) = .Starting →
      (run evs s0).self.waydroid_enabled_switch.sensitive = false ∧
      wait_armed (run evs s0) = 1 ∧
      ∀ reqs, run (enable_requests reqs) (run evs s0) = run evs s0) ∧
    (gtk_widget_is_sensitive .waydroid_enabled_switch (run evs s0).self = true →
      (run evs s0).self.waydroid_enabled_switch.active = false →
      sessionState (step (.enable_request true true) (run evs s0)) = .Starting ∧
      (step (.enable_request true true) (run evs s0)).spawned =
        (run evs s0).spawned ++ [.g_spawn_async_with_pipes ["waydroid", "session", "start"]] ∧
      (step (.enable_request true true) (run evs s0)).timeouts = [wait_timeout] ∧
      (step (.enable_request true true) (run evs s0)).self.waydroid_enabled_switch.sensitive
        = false) := by
  have hc := run_consistent evs s0 h0
  generalize run evs s0 = s at hc
  refine ⟨?_, ?_, ?_⟩
  · intro e hs hr
    rcases running_from e s hc hr with h | h <;> rw [hs] at h <;> cases h
  · intro hs
    obtain ⟨ht, hsens⟩ := starting_timeouts s hc hs
    refine ⟨hsens, ?_, requests_dropped s hsens⟩
    simp [wait_armed, ht, wait_timeout]
  · intro hsens hact
    have ht : s.timeouts = [] := by
      rcases hc.1 with h1 | h1
      · exact h1
      · simp [gtk_widget_is_sensitive, gtk_widget_get_sensitive, h1.2.1] at hsens
    simp [step, request_enabled_switch, enable_handler_returns_false, hsens, hact,
      cc_waydroid_panel_enable_waydroid, spawn, set_sensitive, gtk_widget_set_sensitive,
      g_timeout_add_seconds, ht, sessionState, wait_armed, wait_timeout]

theorem C1_enable_goes_through_starting_witness :
    Consistent stopped_vanilla ∧
    sessionState stopped_vanilla = .Stopped ∧
    sessionState (run [.enable_request true true] stopped_vanilla) = .Starting ∧
    (run [.enable_request true true] stopped_vanilla).self.waydroid_enabled_switch.sensitive
      = false ∧
    wait_armed (run [.enable_request true true] stopped_vanilla) = 1 ∧
    run (enable_requests [(false, true), (true, true)])
      (run [.enable_request true true] stopped_vanilla) =
        run [.enable_request true true] stopped_vanilla ∧
    (step (.enable_request true true) (run [] stopped_vanilla)).spawned =
      (run [] stopped_vanilla).spawned ++
        [.g_spawn_async_with_pipes ["waydroid", "session", "start"]] :=
  have hc : Consistent stopped_vanilla :=
    cc_waydroid_panel_init_consistent host_stopped_vanilla fresh rfl
  have h := C1_enable_goes_through_starting stopped_vanilla hc [.enable_request true true]
  have h' := C1_enable_goes_through_starting stopped_vanilla hc []
  ⟨hc, by decide, by decide, (h.2.1 (by decide)).1, (h.2.1 (by decide)).2.1,
    (h.2.1 (by decide)).2.2 [(false, true), (true, true)],
    (h'.2.2 (by decide) (by decide)).2.1⟩

/-- C2: code evaluated at a lookup that answers with a protected package
name followed by the line feed the lookup prints. The trimmed name is in the
protected set, yet the twelve comparisons are made on the untrimmed text and
all pass: the removal command for the protected package is spawned and the
four app controls are made insensitive. -/
theorem C2_protected_package_is_removed :
    g_strstrip "com.android.settings\n" ∈ ProtectedPackageSet ∧
    gtk_drop_down_get_selected_item running_shown.self.app_selector = some "Settings" ∧
    running_shown.self.remove_app_button.sensitive = true ∧
    (cc_waydroid_panel_uninstall_app ⟨true, 0, some "com.android.settings\n"⟩
        running_shown).spawned.getLast? =
      some (.g_spawn_command_line_async "waydroid app remove com.android.settings") ∧
    (cc_waydroid_panel_uninstall_app ⟨true, 0, some "com.android.settings\n"⟩
        running_shown).self.remove_app_button.sensitive = false ∧
    (cc_waydroid_panel_uninstall_app ⟨true, 0, some "com.android.settings\n"⟩
        running_shown).self.app_selector.sensitive = false := by
  decide

/-- C3: when the app-list probe exits non-zero, or has no output, or has
empty output, the thread posts no idle callback: the panel (and with it the
drop-down's model), the idle queue, the timeouts and `PackageState` are what
they were; only the probe itself is added to the spawn log. -/
theorem C3_failed_probe_keeps_snapshot (r : SyncResult) (s : State)
    (h : r.exit_status ≠ 0 ∨ r.output = none ∨ r.output = some "") :
    (update_app_list r s).idles = s.idles ∧
    (update_app_list r s).self = s.self ∧
    (update_app_list r s).self.app_selector.model = s.self.app_selector.model ∧
    (update_app_list r s).timeouts = s.timeouts ∧
    (update_app_list r s).threads = s.threads ∧
    (update_app_list r s).PackageState = s.PackageState := by
  simp [update_app_list, h, spawn]

theorem C3_failed_probe_keeps_snapshot_witness :
    ((⟨true, 1, some "Settings\n"⟩ : SyncResult).exit_status ≠ 0 ∨
      (⟨true, 1, some "Settings\n"⟩ : SyncResult).output = none ∨
      (⟨true, 1, some "Settings\n"⟩ : SyncResult).output = some "") ∧
    (update_app_list ⟨true, 1, some "Settings\n"⟩ running_shown).idles = running_shown.idles ∧
    (update_app_list ⟨true, 1, some "Settings\n"⟩ running_shown).self = running_shown.self ∧
    (update_app_list ⟨true, 1, some "Settings\n"⟩ running_shown).self.app_selector.model =
      running_shown.self.app_selector.model ∧
    (update_app_list ⟨true, 1, some "Settings\n"⟩ running_shown).timeouts =
      running_shown.timeouts ∧
    (update_app_list ⟨true, 1, some "Settings\n"⟩ running_shown).threads =
      running_shown.threads ∧
    (update_app_list ⟨true, 1, some "Settings\n"⟩ running_shown).PackageState =
      running_shown.PackageState :=
  ⟨by decide, C3_failed_probe_keeps_snapshot ⟨true, 1, some "Settings\n"⟩ running_shown
    (by decide)⟩

/-- C4: code evaluated on a reachable panel. After start-up with the vanilla
image installed, an enable, the elapsed wait and a disable, the vanilla
toggle is still the active one and `PackageState` is still vanilla, but the
disable path has made the install-image button sensitive. A click is taken,
the install thread is started, and with a successful command it spawns the
package installation and flips `PackageState` to gapps. -/
theorem C4_same_variant_install_is_dispatched :
    selected_variant stopped_vanilla.self = stopped_vanilla.PackageState ∧
    gtk_widget_is_sensitive .install_image_button stopped_vanilla.self = false ∧
    selected_variant stopped_again.self = .PACKAGE_STATE_VANILLA ∧
    stopped_again.PackageState = .PACKAGE_STATE_VANILLA ∧
    sessionState stopped_again = .Stopped ∧
    gtk_widget_is_sensitive .install_image_button stopped_again.self = true ∧
    (click_install_image_button stopped_again).threads.getLast? =
      some (.cc_waydroid_panel_install_image_thread .install_image_button .panel) ∧
    (cc_waydroid_panel_install_image_thread .install_image_button .panel "1000"
        ⟨true, 0, some ""⟩ (click_install_image_button stopped_again)).spawned.getLast? =
      some (.g_spawn_command_line_sync "pkexec env XDG_RUNTIME_DIR=/run/user/1000 x-terminal-emulator -e 'pacman -Syy && rm -f /var/lib/waydroid/images/vendor.img && rm -f /var/lib/waydroid/images/system.img && rm -f /var/lib/waydroid/waydroid.cfg && pacman -S waydroid-image --noconfirm && waydroid init -f'") ∧
    (cc_waydroid_panel_install_image_thread .install_image_button .panel "1000"
        ⟨true, 0, some ""⟩ (click_install_image_button stopped_again)).PackageState =
      .PACKAGE_STATE_GAPPS := by
  decide

/-- C6: counterexample. From the stopped panel an enable is accepted and the
start command prints a line holding the ready marker. After the callback has
run the session is still Starting, the wait is still armed, and the launch
button and the uevent switch are still insensitive: the session has not
become Running and no app-dependent control was enabled. -/
theorem C6_marker_enables_nothing :
    sessionState stopped_vanilla = .Stopped ∧
    strstr "Android with user 0 is ready\n" "Android with user 0 is ready" = true ∧
    sessionState (run [.enable_request true true,
      .stdout_line 0 (some "Android with user 0 is ready\n")] stopped_vanilla) = .Starting ∧
    ¬ sessionState (run [.enable_request true true,
      .stdout_line 0 (some "Android with user 0 is ready\n")] stopped_vanilla) = .Running ∧
    (run [.enable_request true true,
      .stdout_line 0 (some "Android with user 0 is ready\n")]
        stopped_vanilla).self.launch_app_button.sensitive = false ∧
    (run [.enable_request true true,
      .stdout_line 0 (some "Android with user 0 is ready\n")]
        stopped_vanilla).self.waydroid_uevent_switch.sensitive = false ∧
    (run [.enable_request true true,
      .stdout_line 0 (some "Android with user 0 is ready\n")]
        stopped_vanilla).timeouts = [wait_timeout] := by
  decide

/-- C6, amended: a line on the start command's output, marker or not, leaves
the panel, the pending timeouts, the idle queue, the threads, the spawn log
and `PackageState` as they were, and so the session state too; a line with
the ready marker only shuts the watched channel down, any other line changes
nothing at all. The watch stays installed. -/
theorem C6_marker_only_shuts_channel (channel : Nat) (line : String) (s : State) :
    (child_stdout_callback channel (some line) s).1.self = s.self ∧
    (child_stdout_callback channel (some line) s).1.timeouts = s.timeouts ∧
    (child_stdout_callback channel (some line) s).1.idles = s.idles ∧
    (child_stdout_callback channel (some line) s).1.threads = s.threads ∧
    (child_stdout_callback channel (some line) s).1.spawned = s.spawned ∧
    (child_stdout_callback channel (some line) s).1.PackageState = s.PackageState ∧
    sessionState (child_stdout_callback channel (some line) s).1 = sessionState s ∧
    (child_stdout_callback channel (some line) s).1.io_watches =
      (if strstr line "Android with user 0 is ready" then
        s.io_watches.modify (fun _ => GIOChannel.mk false) channel
      else s.io_watches) ∧
    (child_stdout_callback channel (some line) s).2 = true := by
  simp only [child_stdout_callback]
  split <;> simp [g_io_channel_shutdown, sessionState, wait_armed]

/-- C7: an enable request is accepted with a successful spawn, the start
command prints any lines at all (none of which needs to hold the marker), and
the wait elapses. Then the enable switch is sensitive again, the seven
app-dependent controls are sensitive, factory reset and the three image
controls are insensitive, the callback asked to be removed and no timeout is
left pending, and the session counts as Running. -/
theorem C7_elapsed_wait_enables_controls (s : State)
    (hsens : gtk_widget_is_sensitive .waydroid_enabled_switch s.self = true)
    (hact : s.self.waydroid_enabled_switch.active = false)
    (ht : s.timeouts = [])
    (ls : List (Nat × Option String)) (uevent : SyncResult) (a k : Bool) :
    (step (.enable_request true true) s).timeouts = [wait_timeout] ∧
    (step (.enable_request true true) s).self.waydroid_enabled_switch.sensitive = false ∧
    (enable_then_wait ls uevent a k s).self.waydroid_enabled_switch.sensitive = true ∧
    (enable_then_wait ls uevent a k s).self.launch_app_button.sensitive = true ∧
    (enable_then_wait ls uevent a k s).self.remove_app_button.sensitive = true ∧
    (enable_then_wait ls uevent a k s).self.install_app_button.sensitive = true ∧
    (enable_then_wait ls uevent a k s).self.app_selector.sensitive = true ∧
    (enable_then_wait ls uevent a k s).self.show_ui_button.sensitive = true ∧
    (enable_then_wait ls uevent a k s).self.refresh_app_list_button.sensitive = true ∧
    (enable_then_wait ls uevent a k s).self.waydroid_uevent_switch.sensitive = true ∧
    (enable_then_wait ls uevent a k s).self.waydroid_factory_reset.sensitive = false ∧
    (enable_then_wait ls uevent a k s).self.install_image_button.sensitive = false ∧
    (enable_then_wait ls uevent a k s).self.install_gapps.sensitive = false ∧
    (enable_then_wait ls uevent a k s).self.install_vanilla.sensitive = false ∧
    (reenable_switch_and_update_info uevent
      (run (stdout_lines ls) (step (.enable_request true true) s))).2 = G_SOURCE_REMOVE ∧
    (enable_then_wait ls uevent a k s).timeouts = [] ∧
    sessionState (enable_then_wait ls uevent a k s) = .Running := by
  have h1 : (step (.enable_request true true) s).timeouts = [wait_timeout] := by
    simp [step, request_enabled_switch, enable_handler_returns_false, hsens, hact,
      cc_waydroid_panel_enable_waydroid, spawn, set_sensitive, g_timeout_add_seconds, ht,
      wait_timeout]
  have h2 : (step (.enable_request true true) s).self.waydroid_enabled_switch.sensitive
      = false := by
    simp [step, request_enabled_switch, enable_handler_returns_false, hsens, hact,
      cc_waydroid_panel_enable_waydroid, spawn, set_sensitive, g_timeout_add_seconds,
      gtk_widget_set_sensitive]
  obtain ⟨-, h4⟩ := stdout_lines_keep ls (step (.enable_request true true) s)
  rw [h1] at h4
  refine ⟨h1, h2, ?_⟩
  simp only [enable_then_wait]
  generalize run (stdout_lines ls) (step (.enable_request true true) s) = t at h4
  have hd : step (.timeout 0 uevent a k) t =
      { (reenable_switch_and_update_info uevent t).1 with timeouts := [] } := by
    simp [step, dispatch_timeout, h4, wait_timeout, reenable_returns_false]
    simp [reenable_switch_and_update_info, spawn, set_sensitive, update_waydroid_ip_threaded,
      update_waydroid_vendor_threaded, update_waydroid_version_threaded,
      update_app_list_threaded, g_thread_new, h4]
  rw [hd]
  simp [reenable_switch_and_update_info, spawn, set_sensitive, gtk_widget_set_sensitive,
    update_waydroid_ip_threaded, update_waydroid_vendor_threaded,
    update_waydroid_version_threaded, update_app_list_threaded, g_thread_new,
    gtk_switch_set_both, sessionState, wait_armed, G_SOURCE_REMOVE]
  split <;> rfl

theorem C7_elapsed_wait_enables_controls_witness :
    gtk_widget_is_sensitive .waydroid_enabled_switch stopped_vanilla.self = true ∧
    stopped_vanilla.self.waydroid_enabled_switch.active = false ∧
    stopped_vanilla.timeouts = [] ∧
    sessionState stopped_vanilla = .Stopped ∧
    (enable_then_wait [(0, some "Starting session\n")] ⟨true, 0, some "true\n"⟩ false false
      stopped_vanilla).self.launch_app_button.sensitive = true ∧
    (enable_then_wait [(0, some "Starting session\n")] ⟨true, 0, some "true\n"⟩ false false
      stopped_vanilla).timeouts = [] ∧
    sessionState (enable_then_wait [(0, some "Starting session\n")] ⟨true, 0, some "true\n"⟩
      false false stopped_vanilla) = .Running :=
  have h := C7_elapsed_wait_enables_controls stopped_vanilla (by decide) (by decide) (by decide)
    [(0, some "Starting session\n")] ⟨true, 0, some "true\n"⟩ false false
  ⟨by decide, by decide, by decide, by decide, h.2.2.2.1, h.2.2.2.2.2.2.2.2.2.2.2.2.2.2.2.1,
    h.2.2.2.2.2.2.2.2.2.2.2.2.2.2.2.2⟩

/-- C8: counterexample. The running panel shows an address; after the disable
request has been handled the address label still shows it, so the displayed
information is not all cleared. -/
theorem C8_address_label_not_cleared :
    sessionState running_shown = .Running ∧
    running_shown.self.waydroid_ip_label.text = "192.168.240.112\n" ∧
    (step (.enable_request false true) running_shown).spawned.getLast? =
      some (.g_spawn_sync ["waydroid", "session", "stop"]) ∧
    (step (.enable_request false true) running_shown).self.waydroid_ip_label.text =
      "192.168.240.112\n" ∧
    (step (.enable_request false true) running_shown).self.waydroid_ip_label.text ≠ "" := by
  decide

/-- C8, amended: after the disable branch of the handler, whatever the panel
was and whether or not the stop command could be spawned, the seven
app-dependent controls are insensitive, the install-image button, both
variant toggles and factory reset are sensitive, the drop-down's model is
empty, and the vendor and version labels are empty; the address label keeps
its text, and the address, vendor and version probe threads are started. -/
theorem C8_disable_resets_controls (spawn_success : Bool) (s : State) :
    (cc_waydroid_panel_enable_waydroid false spawn_success s).1.self.launch_app_button.sensitive
      = false ∧
    (cc_waydroid_panel_enable_waydroid false spawn_success s).1.self.remove_app_button.sensitive
      = false ∧
    (cc_waydroid_panel_enable_waydroid false spawn_success s).1.self.install_app_button.sensitive
      = false ∧
    (cc_waydroid_panel_enable_waydroid false spawn_success s).1.self.app_selector.sensitive
      = false ∧
    (cc_waydroid_panel_enable_waydroid false spawn_success s).1.self.show_ui_button.sensitive
      = false ∧
    (cc_waydroid_panel_enable_waydroid false spawn_success
      s).1.self.refresh_app_list_button.sensitive = false ∧
    (cc_waydroid_panel_enable_waydroid false spawn_success
      s).1.self.waydroid_uevent_switch.sensitive = false ∧
    (cc_waydroid_panel_enable_waydroid false spawn_success
      s).1.self.install_image_button.sensitive = true ∧
    (cc_waydroid_panel_enable_waydroid false spawn_success s).1.self.install_gapps.sensitive
      = true ∧
    (cc_waydroid_panel_enable_waydroid false spawn_success s).1.self.install_vanilla.sensitive
      = true ∧
    (cc_waydroid_panel_enable_waydroid false spawn_success
      s).1.self.waydroid_factory_reset.sensitive = true ∧
    (cc_waydroid_panel_enable_waydroid false spawn_success s).1.self.app_selector.model = [] ∧
    (cc_waydroid_panel_enable_waydroid false spawn_success s).1.self.waydroid_vendor_label.text
      = "" ∧
    (cc_waydroid_panel_enable_waydroid false spawn_success s).1.self.waydroid_version_label.text
      = "" ∧
    (cc_waydroid_panel_enable_waydroid false spawn_success s).1.self.waydroid_ip_label
      = s.self.waydroid_ip_label ∧
    (cc_waydroid_panel_enable_waydroid false spawn_success s).1.threads =
      s.threads ++ [.update_waydroid_ip, .update_waydroid_vendor, .update_waydroid_version] ∧
    (cc_waydroid_panel_enable_waydroid false spawn_success s).1.spawned =
      s.spawned ++ [.g_spawn_sync ["waydroid", "session", "stop"]] := by
  simp [cc_waydroid_panel_enable_waydroid, spawn, set_sensitive, gtk_widget_set_sensitive,
    update_waydroid_ip_threaded, update_waydroid_vendor_threaded,
    update_waydroid_version_threaded, g_thread_new, gtk_drop_down_set_model, gtk_label_set_text]

/-- C9: the uevent handler spawns the property write exactly when the enable
switch's state is on, and then with the value argument "true" for a desired
position of on and "false" for off; with the state off it changes nothing.
Along every sequence of events from a consistent start, while the session is
not Running a request on the uevent switch reaches no handler: the process
state, and with it the spawn log, is what it was. -/
theorem C9_uevent_write_only_when_enabled (desired : Bool) (s : State) (s0 : State)
    (h0 : Consistent s0) (evs : List Event) :
    (cc_waydroid_panel_toggle_uevent desired s).1.spawned =
      (if s.self.waydroid_enabled_switch.state then
        s.spawned ++ [.g_spawn_sync ["waydroid", "prop", "set", "persist.waydroid.uevent",
          if desired then "true" else "false"]]
      else s.spawned) ∧
    ((cc_waydroid_panel_toggle_uevent desired s).1.spawned ≠ s.spawned ↔
      s.self.waydroid_enabled_switch.state = true) ∧
    (s.self.waydroid_enabled_switch.state = false →
      (cc_waydroid_panel_toggle_uevent desired s).1 = s) ∧
    (sessionState (run evs s0) ≠ .Running →
      step (.uevent_request desired) (run evs s0) = run evs s0) := by
  refine ⟨?_, ?_, ?_, ?_⟩
  · cases hst : s.self.waydroid_enabled_switch.state <;>
      simp [cc_waydroid_panel_toggle_uevent, hst, spawn]
  · cases hst : s.self.waydroid_enabled_switch.state <;>
      simp [cc_waydroid_panel_toggle_uevent, hst, spawn]
  · intro hst
    simp [cc_waydroid_panel_toggle_uevent, hst]
  · intro hr
    exact uevent_request_dropped (run evs s0) (run_consistent evs s0 h0) hr desired

theorem C9_uevent_write_only_when_enabled_witness :
    Consistent stopped_vanilla ∧
    sessionState (run [.enable_request true true] stopped_vanilla) ≠ .Running ∧
    (cc_waydroid_panel_toggle_uevent true running_shown).1.spawned =
      running_shown.spawned ++
        [.g_spawn_sync ["waydroid", "prop", "set", "persist.waydroid.uevent", "true"]] ∧
    step (.uevent_request true) (run [.enable_request true true] stopped_vanilla) =
      run [.enable_request true true] stopped_vanilla :=
  have hc : Consistent stopped_vanilla :=
    cc_waydroid_panel_init_consistent host_stopped_vanilla fresh rfl
  have h := C9_uevent_write_only_when_enabled true running_shown stopped_vanilla hc
    [.enable_request true true]
  ⟨hc, by decide, h.1, h.2.2.2 (by decide)⟩

/-- C10: counterexample. On the stopped panel the enable switch's state is
off and the uevent switch's state is off. When `state-set` is emitted for the
position on, the handler spawns nothing and returns `FALSE`, the default
handler stores the position, and the uevent switch's state ends on: it is not
what it was before. -/
theorem C10_position_is_applied :
    sessionState stopped_vanilla = .Stopped ∧
    stopped_vanilla.self.waydroid_enabled_switch.state = false ∧
    stopped_vanilla.self.waydroid_uevent_switch.state = false ∧
    cc_waydroid_panel_toggle_uevent true stopped_vanilla = (stopped_vanilla, false) ∧
    (emit_uevent_state_set true stopped_vanilla).spawned = stopped_vanilla.spawned ∧
    (emit_uevent_state_set true stopped_vanilla).self.waydroid_uevent_switch.state = true ∧
    (emit_uevent_state_set true stopped_vanilla).self.waydroid_uevent_switch.state ≠
      stopped_vanilla.self.waydroid_uevent_switch.state := by
  decide

/-- C10, amended: with the enable switch's state off the uevent handler
spawns nothing, changes nothing and returns `FALSE`; it never stops the
default handler, so after every emission of `state-set` the uevent switch's
position and state are the requested ones. Along every sequence of events
from a consistent start, while the session is not Running a request on the
uevent switch is not delivered, and for that reason the switch is what it was
before the request. -/
theorem C10_no_revert_but_not_delivered (desired : Bool) (s : State) (s0 : State)
    (h0 : Consistent s0) (evs : List Event) :
    (s.self.waydroid_enabled_switch.state = false →
      cc_waydroid_panel_toggle_uevent desired s = (s, false)) ∧
    (cc_waydroid_panel_toggle_uevent desired s).2 = false ∧
    (emit_uevent_state_set desired s).self.waydroid_uevent_switch.state = desired ∧
    (emit_uevent_state_set desired s).self.waydroid_uevent_switch.active = desired ∧
    (sessionState (run evs s0) ≠ .Running →
      gtk_widget_is_sensitive .waydroid_uevent_switch (run evs s0).self = false ∧
      (step (.uevent_request desired) (run evs s0)).self.waydroid_uevent_switch =
        (run evs s0).self.waydroid_uevent_switch) := by
  refine ⟨?_, toggle_uevent_returns_false desired s, ?_, ?_, ?_⟩
  · intro hst
    simp [cc_waydroid_panel_toggle_uevent, hst]
  · simp [emit_uevent_state_set, toggle_uevent_returns_false]
  · cases hst : s.self.waydroid_enabled_switch.state <;>
      simp [emit_uevent_state_set, toggle_uevent_returns_false, cc_waydroid_panel_toggle_uevent,
        hst, spawn, gtk_switch_set_state_of_active]
  · intro hr
    have hc := run_consistent evs s0 h0
    constructor
    · obtain ⟨h1, h2, -⟩ := hc
      have hl : (run evs s0).self.launch_app_button.sensitive = false := by
        rcases h1 with h1 | h1
        · cases hb : (run evs s0).self.launch_app_button.sensitive
          · rfl
          · exact absurd (by simp [sessionState, wait_armed, h1, hb]) hr
        · exact h1.2.2.2
      simp [gtk_widget_is_sensitive, gtk_widget_get_sensitive, h2, hl]
    · simp only [step]
      rw [uevent_request_dropped (run evs s0) hc hr desired]

theorem C10_no_revert_but_not_delivered_witness :
    Consistent stopped_vanilla ∧
    sessionState (run [.enable_request true false] stopped_vanilla) ≠ .Running ∧
    (emit_uevent_state_set true stopped_vanilla).self.waydroid_uevent_switch.state = true ∧
    (step (.uevent_request true)
      (run [.enable_request true false] stopped_vanilla)).self.waydroid_uevent_switch =
        (run [.enable_request true false] stopped_vanilla).self.waydroid_uevent_switch :=
  have hc : Consistent stopped_vanilla :=
    cc_waydroid_panel_init_consistent host_stopped_vanilla fresh rfl
  have h := C10_no_revert_but_not_delivered true stopped_vanilla stopped_vanilla hc
    [.enable_request true false]
  ⟨hc, by decide, h.2.2.1, (h.2.2.2.2 (by decide)).2⟩

/-- C11: code evaluated at the removal of a non-protected app. The handler
spawns the removal command, makes the selector and the remove, install and
refresh buttons insensitive and arms four five-second timeouts, one per
control; it also starts the app-list thread itself, while all four timeouts
are still pending. When one of the timeouts expires it stores a sensitivity
flag and starts no thread. -/
theorem C11_app_list_thread_started_at_dispatch :
    gtk_drop_down_get_selected_item running_notes.self.app_selector = some "Notes" ∧
    not_protected (g_strstrip "org.example.notes\n") = true ∧
    notes_removal_dispatched.spawned.getLast? =
      some (.g_spawn_command_line_async "waydroid app remove org.example.notes") ∧
    notes_removal_dispatched.self.app_selector.sensitive = false ∧
    notes_removal_dispatched.self.remove_app_button.sensitive = false ∧
    notes_removal_dispatched.self.install_app_button.sensitive = false ∧
    notes_removal_dispatched.self.refresh_app_list_button.sensitive = false ∧
    notes_removal_dispatched.timeouts =
      [⟨5, .gtk_widget_set_sensitive .app_selector⟩,
       ⟨5, .gtk_widget_set_sensitive .remove_app_button⟩,
       ⟨5, .gtk_widget_set_sensitive .install_app_button⟩,
       ⟨5, .gtk_widget_set_sensitive .refresh_app_list_button⟩] ∧
    notes_removal_dispatched.threads = running_notes.threads ++ [.update_app_list] ∧
    (dispatch_timeout 0 ⟨true, 0, some ""⟩ true false notes_removal_dispatched).threads =
      notes_removal_dispatched.threads ∧
    (dispatch_timeout 3 ⟨true, 0, some ""⟩ true false notes_removal_dispatched).threads =
      notes_removal_dispatched.threads := by
  decide

/-- C12: code evaluated at a lookup that exits with status 0 and prints
nothing. The empty output is not `NULL`, so it is handed on as the package
name, the launch thread is started with it and spawns the launch command
with no package name after it. With no package name at all (`NULL`) the
thread spawns nothing. -/
theorem C12_launch_without_package_name :
    gtk_drop_down_get_selected_item running_notes.self.app_selector = some "Notes" ∧
    (get_selected_app_pkgname ⟨true, 0, some ""⟩ running_notes).2 = some "" ∧
    (cc_waydroid_panel_launch_app_threaded ⟨true, 0, some ""⟩ running_notes).threads.getLast? =
      some (.cc_waydroid_panel_launch_app_thread (some "")) ∧
    (cc_waydroid_panel_launch_app_thread (some "")
      (cc_waydroid_panel_launch_app_threaded ⟨true, 0, some ""⟩
        running_notes)).spawned.getLast? =
      some (.g_spawn_command_line_async "waydroid app launch ") ∧
    (get_selected_app_pkgname ⟨true, 1, some "org.example.notes\n"⟩ running_notes).2 = none ∧
    (∀ s : State, cc_waydroid_panel_launch_app_thread none s = s) ∧
    (∀ (pkgname : String) (s : State),
      (cc_waydroid_panel_launch_app_thread (some pkgname) s).spawned =
        s.spawned ++ [.g_spawn_command_line_async ("waydroid app launch " ++ g_strstrip pkgname)])
    := by
  refine ⟨by decide, by decide, by decide, by decide, by decide, fun _ => rfl, fun _ _ => rfl⟩

/-- C13: counterexample. The running panel shows an address; the address
probe then exits with status 1 and no text. The thread still queues the label
update, and once it has run the address label is blank instead of keeping the
address. -/
theorem C13_failed_probe_blanks_label :
    running_shown.self.waydroid_ip_label.text = "192.168.240.112\n" ∧
    (update_waydroid_ip ⟨true, 1, some ""⟩ running_shown).idles =
      running_shown.idles ++ [.update_label_idle (some "")] ∧
    (update_label_idle (some "")
      (update_waydroid_ip ⟨true, 1, some ""⟩ running_shown)).1.self.waydroid_ip_label.text = "" ∧
    (update_label_idle (some "")
      (update_waydroid_ip ⟨true, 1, some ""⟩ running_shown)).1.self.waydroid_ip_label.text ≠
      running_shown.self.waydroid_ip_label.text := by
  decide

/-- C13, amended: each informational probe queues its label update whatever
the command returned, the exit status not being looked at. The address and
vendor updates carry the output as it is, and the version update, for an
output that is present, carries the first two dash-separated pieces joined by
a dash, and nothing for an empty output. When an update runs, the label takes
the carried text, and is blank when nothing is carried. -/
theorem C13_probe_always_posts (r : SyncResult) (output : String) (o : Option String)
    (s : State) :
    (update_waydroid_ip r s).idles = s.idles ++ [.update_label_idle r.output] ∧
    (update_waydroid_vendor r s).idles = s.idles ++ [.update_vendor_idle r.output] ∧
    (update_waydroid_version ⟨r.success, r.exit_status, some output⟩ s).map (fun t => t.idles) =
      some (s.idles ++ [.update_version_idle
        (g_strconcat ((g_strsplit output "-" 3).get? 0)
          [some "-", (g_strsplit output "-" 3).get? 1])]) ∧
    (update_waydroid_version ⟨r.success, r.exit_status, some ""⟩ s).map (fun t => t.idles) =
      some (s.idles ++ [.update_version_idle none]) ∧
    (update_label_idle o s).1.self.waydroid_ip_label.text = o.getD "" ∧
    (update_vendor_idle o s).1.self.waydroid_vendor_label.text = o.getD "" ∧
    (update_version_idle o s).1.self.waydroid_version_label.text = o.getD "" := by
  refine ⟨rfl, rfl, rfl, rfl, rfl, rfl, rfl⟩

/-- C14: counterexample. On a stopped panel a factory reset has been
dispatched and its cooldown is pending, so a session-affecting operation is
outstanding; the install-image button is nevertheless sensitive, a click on
it is taken and starts the install thread, and the thread spawns the
installation. -/
theorem C14_install_during_reset_cooldown :
    sessionState reset_pending = .Stopped ∧
    reset_pending.spawned.getLast? =
      some (.g_spawn_async ["pkexec", "env", "HOME=/home/user", "/bin/sh", "-c",
        "rm -rf $HOME/.local/share/waydroid"]) ∧
    reset_pending.timeouts = [cooldown_timeout] ∧
    reset_pending.self.waydroid_factory_reset.sensitive = false ∧
    gtk_widget_is_sensitive .install_image_button reset_pending.self = true ∧
    (session_step .install_image reset_pending).threads.getLast? =
      some (.cc_waydroid_panel_install_image_thread .install_image_button .panel) ∧
    (session_run [.install_image, .install_image_done 7 "1000" ⟨true, 0, some ""⟩]
      reset_pending).spawned.getLast? =
      some (.g_spawn_command_line_sync "pkexec env XDG_RUNTIME_DIR=/run/user/1000 x-terminal-emulator -e 'pacman -Syy && rm -f /var/lib/waydroid/images/vendor.img && rm -f /var/lib/waydroid/images/system.img && rm -f /var/lib/waydroid/waydroid.cfg && pacman -S waydroid-image --noconfirm && waydroid init -f'") := by
  decide

/-- C14, amended: along every sequence of enable and disable requests, timer
expiries, factory resets, image installs and refresh clicks from a gated
start, while the session is Running the install-image button is insensitive
and a click on it changes nothing. A factory reset or an image install is
handled only when its own button takes input. The wait handler leaves factory
reset and install-image insensitive, the disable branch leaves them
sensitive, and the factory-reset handler touches no widget but its own
button. -/
theorem C14_running_locks_image_install (s0 : State) (h0 : Gated s0) (evs : List SessionEvent)
    (home_dir : String) (spawn_success : Bool) (uevent : SyncResult) (s : State) :
    (sessionState (session_run evs s0) = .Running →
      (session_run evs s0).self.install_image_button.sensitive = false ∧
      session_step .install_image (session_run evs s0) = session_run evs s0) ∧
    (gtk_widget_is_sensitive .waydroid_factory_reset s.self = false →
      session_step (.factory_reset home_dir spawn_success) s = s) ∧
    (gtk_widget_is_sensitive .install_image_button s.self = false →
      session_step .install_image s = s) ∧
    (reenable_switch_and_update_info uevent s).1.self.waydroid_factory_reset.sensitive = false ∧
    (reenable_switch_and_update_info uevent s).1.self.install_image_button.sensitive = false ∧
    (cc_waydroid_panel_enable_waydroid false spawn_success
      s).1.self.waydroid_factory_reset.sensitive = true ∧
    (cc_waydroid_panel_enable_waydroid false spawn_success
      s).1.self.install_image_button.sensitive = true ∧
    (cc_waydroid_factory_reset_threaded home_dir spawn_success s).self =
      (if spawn_success then gtk_widget_set_sensitive .waydroid_factory_reset false s.self
        else s.self) := by
  refine ⟨?_, ?_, ?_, ?_, ?_, ?_, ?_, ?_⟩
  · intro hr
    have hg := session_run_gated evs s0 h0
    generalize session_run evs s0 = t at hg hr
    have hl : t.self.launch_app_button.sensitive = true := by
      simp only [sessionState] at hr
      split at hr
      · cases hr
      · split at hr
        · assumption
        · split at hr <;> cases hr
    have hi := (hg.2.2.2.1 hl).2.2
    refine ⟨hi, ?_⟩
    simp [session_step, click_install_image_button, gtk_widget_is_sensitive,
      gtk_widget_get_sensitive, hi]
  · intro h
    simp [session_step, click_factory_reset_button, h]
  · intro h
    simp [session_step, click_install_image_button, h]
  · rfl
  · rfl
  · rfl
  · rfl
  · cases spawn_success <;> rfl

theorem C14_running_locks_image_install_witness :
    Gated running_shown ∧
    sessionState (session_run [.refresh] running_shown) = .Running ∧
    (session_run [.refresh] running_shown).self.install_image_button.sensitive = false ∧
    session_step .install_image (session_run [.refresh] running_shown) =
      session_run [.refresh] running_shown :=
  have hg : Gated running_shown := by unfold Gated; decide
  have h := C14_running_locks_image_install running_shown hg [.refresh] "/home/user" true
    ⟨true, 0, some "true\n"⟩ running_shown
  ⟨hg, by decide, (h.1 (by decide)).1, (h.1 (by decide)).2⟩

/-- C15: the factory-reset handler. When the spawn succeeds the factory-reset
button is made insensitive and nothing else of the panel changes, and exactly
one timeout is added to the pending ones: fifteen seconds, with
`gtk_widget_set_sensitive` on the factory-reset button as its function; when
that timeout expires the button takes the flag the call carries. When the
spawn fails the panel and the pending timeouts are what they were. In
both cases the idle queue, the threads, the watches and `PackageState` are
untouched and the only addition to the spawn log is the attempted command. -/
theorem C15_factory_reset_locks_on_success (home_dir : String) (s : State)
    (uevent : SyncResult) (sensitive_arg keep : Bool) :
    (cc_waydroid_factory_reset_threaded home_dir true s).self =
      gtk_widget_set_sensitive .waydroid_factory_reset false s.self ∧
    (cc_waydroid_factory_reset_threaded home_dir true s).self.waydroid_factory_reset.sensitive
      = false ∧
    (cc_waydroid_factory_reset_threaded home_dir true s).timeouts =
      s.timeouts ++ [cooldown_timeout] ∧
    cooldown_timeout = ⟨15, .gtk_widget_set_sensitive .waydroid_factory_reset⟩ ∧
    (dispatch_timeout s.timeouts.length uevent sensitive_arg keep
      (cc_waydroid_factory_reset_threaded home_dir true s)).self =
        gtk_widget_set_sensitive .waydroid_factory_reset sensitive_arg s.self ∧
    (cc_waydroid_factory_reset_threaded home_dir false s).self = s.self ∧
    (cc_waydroid_factory_reset_threaded home_dir false s).timeouts = s.timeouts ∧
    (∀ ok, (cc_waydroid_factory_reset_threaded home_dir ok s).idles = s.idles ∧
      (cc_waydroid_factory_reset_threaded home_dir ok s).threads = s.threads ∧
      (cc_waydroid_factory_reset_threaded home_dir ok s).io_watches = s.io_watches ∧
      (cc_waydroid_factory_reset_threaded home_dir ok s).child_watches = s.child_watches ∧
      (cc_waydroid_factory_reset_threaded home_dir ok s).PackageState = s.PackageState ∧
      (cc_waydroid_factory_reset_threaded home_dir ok s).spawned =
        s.spawned ++ [.g_spawn_async ["pkexec", "env", "HOME=" ++ home_dir, "/bin/sh", "-c",
          "rm -rf $HOME/.local/share/waydroid"]]) := by
  refine ⟨rfl, rfl, rfl, rfl, ?_, rfl, rfl, ?_⟩
  · cases keep <;>
      simp [dispatch_timeout, cc_waydroid_factory_reset_threaded, spawn, set_sensitive,
        g_timeout_add_seconds, cooldown_timeout, gtk_widget_set_sensitive]
  · intro ok
    cases ok <;> exact ⟨rfl, rfl, rfl, rfl, rfl, rfl⟩

/-- C17: code evaluated at the two install workers. The body of the
image-install thread, run with a successful command, writes `PackageState`
and sets the sensitivity of the widget it holds by itself, besides queueing
the re-initialisation; the body of the runtime-install thread clears the
active flag of the toggle button it holds by itself. The probe and launch
workers leave the panel and `PackageState` as they are. -/
theorem C17_install_workers_write_shared_state :
    (click_install_image_button stopped_again).PackageState = .PACKAGE_STATE_VANILLA ∧
    (click_install_image_button stopped_again).self.parent.sensitive = false ∧
    (cc_waydroid_panel_install_image_thread .install_image_button .panel "1000"
      ⟨true, 0, some ""⟩ (click_install_image_button stopped_again)).PackageState =
        .PACKAGE_STATE_GAPPS ∧
    (cc_waydroid_panel_install_image_thread .install_image_button .panel "1000"
      ⟨true, 0, some ""⟩ (click_install_image_button stopped_again)).self.parent.sensitive
        = true ∧
    install_pressed.self.install_waydroid_button.active = true ∧
    (cc_waydroid_panel_install_waydroid_thread .panel .install_waydroid_button "1000" true true
      install_pressed).self.install_waydroid_button.active = false ∧
    (∀ (r : SyncResult) (s : State),
      (update_waydroid_ip r s).self = s.self ∧
      (update_waydroid_ip r s).PackageState = s.PackageState ∧
      (update_waydroid_vendor r s).self = s.self ∧
      (update_waydroid_vendor r s).PackageState = s.PackageState ∧
      (update_app_list r s).self = s.self ∧
      (update_app_list r s).PackageState = s.PackageState) ∧
    (∀ (pkgname : Option String) (s : State),
      (cc_waydroid_panel_launch_app_thread pkgname s).self = s.self ∧
      (cc_waydroid_panel_launch_app_thread pkgname s).PackageState = s.PackageState) := by
  refine ⟨by decide, by decide, by decide, by decide, by decide, by decide, ?_, ?_⟩
  · intro r s
    refine ⟨rfl, rfl, rfl, rfl, ?_, ?_⟩ <;>
      (simp only [update_app_list]; split <;> rfl)
  · intro pkgname s
    cases pkgname <;> exact ⟨rfl, rfl⟩

/-- C18: code evaluated at an image install with the gapps image installed
and the vanilla toggle picked. The click is taken, and the command the thread
spawns installs the package `waydroid-image-gapps`, the variant already
installed; after its success `PackageState` is nevertheless vanilla. -/
theorem C18_install_names_installed_variant :
    gapps_wants_vanilla.PackageState = .PACKAGE_STATE_GAPPS ∧
    selected_variant gapps_wants_vanilla.self = .PACKAGE_STATE_VANILLA ∧
    gtk_widget_is_sensitive .install_image_button gapps_wants_vanilla.self = true ∧
    (click_install_image_button gapps_wants_vanilla).threads.getLast? =
      some (.cc_waydroid_panel_install_image_thread .install_image_button .panel) ∧
    (cc_waydroid_panel_install_image_thread .install_image_button .panel "1000"
      ⟨true, 0, some ""⟩ (click_install_image_button gapps_wants_vanilla)).spawned.getLast? =
      some (.g_spawn_command_line_sync "pkexec env XDG_RUNTIME_DIR=/run/user/1000 x-terminal-emulator -e 'pacman -Syy && rm -f /var/lib/waydroid/images/vendor.img && rm -f /var/lib/waydroid/images/system.img && rm -f /var/lib/waydroid/waydroid.cfg && pacman -S waydroid-image-gapps --noconfirm && waydroid init -f'") ∧
    (cc_waydroid_panel_install_image_thread .install_image_button .panel "1000"
      ⟨true, 0, some ""⟩ (click_install_image_button gapps_wants_vanilla)).PackageState =
      .PACKAGE_STATE_VANILLA ∧
    (cc_waydroid_panel_install_image_thread .install_image_button .panel "1000"
      ⟨true, 0, some ""⟩ (click_install_image_button stopped_again)).spawned.getLast? =
      some (.g_spawn_command_line_sync "pkexec env XDG_RUNTIME_DIR=/run/user/1000 x-terminal-emulator -e 'pacman -Syy && rm -f /var/lib/waydroid/images/vendor.img && rm -f /var/lib/waydroid/images/system.img && rm -f /var/lib/waydroid/waydroid.cfg && pacman -S waydroid-image --noconfirm && waydroid init -f'") ∧
    (cc_waydroid_panel_install_image_thread .install_image_button .panel "1000"
      ⟨true, 0, some ""⟩ (click_install_image_button stopped_again)).PackageState =
      .PACKAGE_STATE_GAPPS := by
  decide

/-- C19: an app-list probe that exits with status 0 and prints something.
The thread queues exactly one update, carrying the output cut at every line
feed; when that update runs, on whatever panel it finds, the drop-down's
model becomes exactly the non-empty lines of the output, in order and with
repeats kept, whatever the model was before. -/
theorem C19_app_list_replaced_wholesale (success : Bool) (output : String) (s s' : State)
    (h : output ≠ "") :
    (update_app_list ⟨success, 0, some output⟩ s).idles =
      s.idles ++ [.update_app_list_idle (g_strsplit_set output "\n")] ∧
    (update_app_list_idle (g_strsplit_set output "\n") s').1.self.app_selector.model =
      nonempty_lines output ∧
    (update_app_list_idle (g_strsplit_set output "\n") s').2 = G_SOURCE_REMOVE := by
  refine ⟨?_, ?_, rfl⟩
  · simp [update_app_list, h, spawn, g_idle_add]
  · simp only [update_app_list_idle, set_sensitive, gtk_widget_set_sensitive,
      gtk_drop_down_set_model]
    exact g_strsplit_set_lines output h

theorem C19_app_list_replaced_wholesale_witness :
    ("Settings\nFiles\n\nSettings\n" : String) ≠ "" ∧
    running_notes.self.app_selector.model = ["Notes", "Settings"] ∧
    nonempty_lines "Settings\nFiles\n\nSettings\n" = ["Settings", "Files", "Settings"] ∧
    (update_app_list_idle (g_strsplit_set "Settings\nFiles\n\nSettings\n" "\n")
      running_notes).1.self.app_selector.model = nonempty_lines "Settings\nFiles\n\nSettings\n" :=
  ⟨by decide, by decide, by decide,
    (C19_app_list_replaced_wholesale true "Settings\nFiles\n\nSettings\n" running_notes
      running_notes (by decide)).2.1⟩

/-- C20: the text the version thread queues for display, by the number of
dashes in the probe's output. With two or more, it is the text before the
second dash: the output is that text, a dash, and a remainder, and the text
holds exactly one dash. With exactly one, it is the whole output. With none
and a non-empty output, it is the output followed by one dash. -/
theorem C20_version_text (success : Bool) (exit_status : Int) (output : String) (s : State) :
    (2 ≤ output.data.count '-' →
      (update_waydroid_version ⟨success, exit_status, some output⟩ s).map (fun t => t.idles) =
        some (s.idles ++ [.update_version_idle (some (text_before_second_dash output))]) ∧
      (∃ rest, output.data = (text_before_second_dash output).data ++ '-' :: rest) ∧
      (text_before_second_dash output).data.count '-' = 1) ∧
    (output.data.count '-' = 1 →
      (update_waydroid_version ⟨success, exit_status, some output⟩ s).map (fun t => t.idles) =
        some (s.idles ++ [.update_version_idle (some output)])) ∧
    (output ≠ "" → output.data.count '-' = 0 →
      (update_waydroid_version ⟨success, exit_status, some output⟩ s).map (fun t => t.idles) =
        some (s.idles ++ [.update_version_idle (some (output ++ "-"))])) := by
  have hd : ("-" : String).data = ['-'] := rfl
  have hmk : String.mk output.data = output := rfl
  refine ⟨?_, ?_, ?_⟩
  · intro h
    have hpos : 0 < output.data.count '-' := by omega
    have hne : output ≠ "" := by
      apply ne_empty_of_data
      intro he
      rw [he] at hpos
      simp at hpos
    obtain ⟨d1, d2, d3⟩ := dash_decompose output.data hpos
    have hr : 0 < ((output.data.dropWhile (fun c => c != '-')).tail).count '-' := by omega
    obtain ⟨e1, e2, e3⟩ := dash_decompose _ hr
    refine ⟨?_, ?_, ?_⟩
    · rw [version_idles]
      simp only [g_strsplit, hne, if_false, hd, g_strsplit_loop_dash_2 output.data h,
        g_strconcat, text_before_second_dash]
      simp [String.join]
      apply String.ext
      simp
    · refine ⟨((output.data.dropWhile (fun c => c != '-')).tail.dropWhile
        (fun c => c != '-')).tail, ?_⟩
      simp only [text_before_second_dash]
      rw [List.append_assoc, List.cons_append, ← e1]
      exact d1
    · simp [text_before_second_dash, List.count_append, List.count_cons, d2, e2]
  · intro h
    have hpos : 0 < output.data.count '-' := by omega
    have hne : output ≠ "" := by
      apply ne_empty_of_data
      intro he
      rw [he] at hpos
      simp at hpos
    obtain ⟨d1, -, -⟩ := dash_decompose output.data hpos
    rw [version_idles]
    simp only [g_strsplit, hne, if_false, hd, g_strsplit_loop_dash_1 output.data h,
      g_strconcat]
    simp [String.join]
    apply String.ext
    simp
    exact d1.symm
  · intro hne h
    rw [version_idles]
    simp only [g_strsplit, hne, if_false, hd, g_strsplit_loop_dash_0 output.data h,
      g_strconcat]
    simp [String.join]

theorem C20_version_text_witness :
    2 ≤ ("18.1-20230723-UNOFFICIAL-lineage_waydroid_x86_64\n" : String).data.count '-' ∧
    text_before_second_dash "18.1-20230723-UNOFFICIAL-lineage_waydroid_x86_64\n" =
      "18.1-20230723" ∧
    (update_waydroid_version ⟨true, 0, some "18.1-20230723-UNOFFICIAL-lineage_waydroid_x86_64\n"⟩
      running_shown).map (fun t => t.idles) =
        some (running_shown.idles ++ [.update_version_idle (some
          (text_before_second_dash "18.1-20230723-UNOFFICIAL-lineage_waydroid_x86_64\n"))]) ∧
    ("18.1-beta\n" : String).data.count '-' = 1 ∧
    (update_waydroid_version ⟨true, 0, some "18.1-beta\n"⟩ running_shown).map
      (fun t => t.idles) =
        some (running_shown.idles ++ [.update_version_idle (some "18.1-beta\n")]) ∧
    ("18.1" : String) ≠ "" ∧
    ("18.1" : String).data.count '-' = 0 ∧
    (update_waydroid_version ⟨true, 0, some "18.1"⟩ running_shown).map (fun t => t.idles) =
      some (running_shown.idles ++ [.update_version_idle (some ("18.1" ++ "-"))]) :=
  ⟨by decide, by decide,
    ((C20_version_text true 0 "18.1-20230723-UNOFFICIAL-lineage_waydroid_x86_64\n"
      running_shown).1 (by decide)).1,
    by decide,
    (C20_version_text true 0 "18.1-beta\n" running_shown).2.1 (by decide),
    by decide, by decide,
    (C20_version_text true 0 "18.1" running_shown).2.2 (by decide) (by decide)⟩

/-- C21: counterexample. On the panel as start-up leaves it with the vanilla
image installed, the vanilla toggle is the active one. When the package check
runs again and both queries fail, `PackageState` becomes none while the
vanilla toggle stays active: the active toggle does not match the state. -/
theorem C21_none_leaves_toggle_active :
    stopped_vanilla.PackageState = .PACKAGE_STATE_VANILLA ∧
    stopped_vanilla.self.install_vanilla.active = true ∧
    (check_package_and_toggle 1 1 stopped_vanilla).1.PackageState = .PACKAGE_STATE_NONE ∧
    (check_package_and_toggle 1 1 stopped_vanilla).1.self.install_vanilla.active = true ∧
    selected_variant (check_package_and_toggle 1 1 stopped_vanilla).1.self =
      .PACKAGE_STATE_VANILLA ∧
    selected_variant (check_package_and_toggle 1 1 stopped_vanilla).1.self ≠
      (check_package_and_toggle 1 1 stopped_vanilla).1.PackageState := by
  decide

/-- C21, amended: after either toggle handler the toggle it is named for is
active and the other one is not, `PackageState` is what it was, and the
install-image button is sensitive exactly when the selected variant differs
from `PackageState`. After the package check `PackageState` is gapps when the
gapps query exits with 0, else vanilla when the vanilla query exits with 0,
else none; in the first two cases the matching toggle is the active one and
the install-image button is insensitive, and in the last case the panel,
both toggles included, is left as it was. -/
theorem C21_toggles_and_package_check (gapps_exit_status vanilla_exit_status : Int)
    (s : State) :
    ((on_install_vanilla_toggled s).1.self.install_vanilla.active = true ∧
      (on_install_vanilla_toggled s).1.self.install_gapps.active = false ∧
      selected_variant (on_install_vanilla_toggled s).1.self = .PACKAGE_STATE_VANILLA ∧
      (on_install_vanilla_toggled s).1.PackageState = s.PackageState ∧
      ((on_install_vanilla_toggled s).1.self.install_image_button.sensitive = true ↔
        selected_variant (on_install_vanilla_toggled s).1.self ≠
          (on_install_vanilla_toggled s).1.PackageState)) ∧
    ((on_install_gapps_toggled s).1.self.install_gapps.active = true ∧
      (on_install_gapps_toggled s).1.self.install_vanilla.active = false ∧
      selected_variant (on_install_gapps_toggled s).1.self = .PACKAGE_STATE_GAPPS ∧
      (on_install_gapps_toggled s).1.PackageState = s.PackageState ∧
      ((on_install_gapps_toggled s).1.self.install_image_button.sensitive = true ↔
        selected_variant (on_install_gapps_toggled s).1.self ≠
          (on_install_gapps_toggled s).1.PackageState)) ∧
    (check_package_and_toggle gapps_exit_status vanilla_exit_status s).1.PackageState =
      (if gapps_exit_status = 0 then .PACKAGE_STATE_GAPPS
        else if vanilla_exit_status = 0 then .PACKAGE_STATE_VANILLA
        else .PACKAGE_STATE_NONE) ∧
    selected_variant (check_package_and_toggle gapps_exit_status vanilla_exit_status s).1.self =
      (if gapps_exit_status = 0 then .PACKAGE_STATE_GAPPS
        else if vanilla_exit_status = 0 then .PACKAGE_STATE_VANILLA
        else selected_variant s.self) ∧
    (check_package_and_toggle gapps_exit_status vanilla_exit_status
        s).1.self.install_image_button.sensitive =
      (if gapps_exit_status = 0 then false
        else if vanilla_exit_status = 0 then false
        else s.self.install_image_button.sensitive) ∧
    (check_package_and_toggle gapps_exit_status vanilla_exit_status s).1.self =
      (if gapps_exit_status = 0 then
          (on_install_gapps_toggled { s with PackageState := .PACKAGE_STATE_GAPPS }).1.self
        else if vanilla_exit_status = 0 then
          (on_install_vanilla_toggled { s with PackageState := .PACKAGE_STATE_VANILLA }).1.self
        else s.self) := by
  refine ⟨?_, ?_, ?_, ?_, ?_, ?_⟩
  · cases hp : s.PackageState <;>
      simp [on_install_vanilla_toggled, selected_variant, set_sensitive,
        gtk_widget_set_sensitive, hp]
  · cases hp : s.PackageState <;>
      simp [on_install_gapps_toggled, selected_variant, set_sensitive,
        gtk_widget_set_sensitive, hp]
  · by_cases hg : gapps_exit_status = 0 <;> by_cases hv : vanilla_exit_status = 0 <;>
      simp [check_package_and_toggle, on_install_gapps_toggled, on_install_vanilla_toggled,
        spawn, set_sensitive, hg, hv]
  · by_cases hg : gapps_exit_status = 0 <;> by_cases hv : vanilla_exit_status = 0 <;>
      simp [check_package_and_toggle, on_install_gapps_toggled, on_install_vanilla_toggled,
        spawn, set_sensitive, gtk_widget_set_sensitive, selected_variant, hg, hv]
  · by_cases hg : gapps_exit_status = 0 <;> by_cases hv : vanilla_exit_status = 0 <;>
      simp [check_package_and_toggle, on_install_gapps_toggled, on_install_vanilla_toggled,
        spawn, set_sensitive, gtk_widget_set_sensitive, hg, hv]
  · by_cases hg : gapps_exit_status = 0 <;> by_cases hv : vanilla_exit_status = 0 <;>
      simp [check_package_and_toggle, on_install_gapps_toggled, on_install_vanilla_toggled,
        spawn, set_sensitive, gtk_widget_set_sensitive, hg, hv]

end CcWaydroid
